import Mathlib

/-!
Verification of the effect-size meta-analysis pipeline.

This file shallowly embeds the statistical core of the repository
(`report_generator.random_effects_meta`, the funnel-plot
`random_effects_meta` / `trim_and_fill`, the phase-4 consensus
synthesiser, the phase-6 quality gates and `EffectSizeCalculator`)
into Lean and proves, or refutes, the spec's claims about it.

Conventions used throughout:
* Python/NumPy floats are idealised as exact rationals (`ℚ`) where the
  source only performs field operations, and as reals (`ℝ`) where
  `np.sqrt` enters a value that flows onward.
* A plain Python `float / float` division raises `ZeroDivisionError` on a
  zero denominator; such divisions are embedded in `Except String`.
  NumPy array/scalar divisions do *not* raise (they produce inf/nan with a
  warning); where the surrounding hypotheses keep denominators nonzero we
  embed them with total field division (whose junk value at 0 is never
  reached under those hypotheses).
* `round(x, n)` / `round(x)` is Python's round-half-to-even, embedded as
  `pyRound` / `roundHalfEven` over `ℚ`.
-/

/-- Round half to even (Python's `round(x)` on a float, idealised over `ℚ`). -/
def roundHalfEven (x : ℚ) : ℤ :=
  let f := ⌊x⌋
  let frac := x - f
  if frac < 1/2 then f
  else if 1/2 < frac then f + 1
  else if f % 2 = 0 then f else f + 1

/-- Python's `round(x, n)` (round half to even at `n` decimal digits). -/
def pyRound (n : ℕ) (x : ℚ) : ℚ :=
  (roundHalfEven (x * 10 ^ n) : ℚ) / 10 ^ n

theorem roundHalfEven_nonneg {x : ℚ} (hx : 0 ≤ x) : 0 ≤ roundHalfEven x := by
  have hf : (0 : ℤ) ≤ ⌊x⌋ := Int.floor_nonneg.mpr hx
  unfold roundHalfEven
  dsimp only
  split
  · exact hf
  · split
    · omega
    · split
      · exact hf
      · omega

theorem roundHalfEven_le_int {x : ℚ} {m : ℤ} (hx : x ≤ (m : ℚ)) :
    roundHalfEven x ≤ m := by
  have hf : ⌊x⌋ ≤ m := by
    have := Int.floor_le_floor hx
    simpa using this
  have hkey : (1/2 : ℚ) ≤ x - ⌊x⌋ → ⌊x⌋ < m := by
    intro hge
    rcases lt_or_eq_of_le hf with h | h
    · exact h
    · exfalso
      have : x - (⌊x⌋ : ℚ) ≤ 0 := by
        rw [h]; linarith
      linarith
  unfold roundHalfEven
  dsimp only
  split
  · exact hf
  · rename_i h1
    split
    · rename_i h2
      have := hkey (le_of_lt h2)
      omega
    · rename_i h2
      have hhalf : x - (⌊x⌋ : ℚ) = 1/2 := by
        push_neg at h1 h2
        linarith
      have := hkey (le_of_eq hhalf.symm)
      split
      · exact hf
      · omega

theorem pyRound_nonneg {x : ℚ} (n : ℕ) (hx : 0 ≤ x) : 0 ≤ pyRound n x := by
  unfold pyRound
  have h1 : (0 : ℤ) ≤ roundHalfEven (x * 10 ^ n) :=
    roundHalfEven_nonneg (by positivity)
  have h2 : (0 : ℚ) ≤ (roundHalfEven (x * 10 ^ n) : ℚ) := by exact_mod_cast h1
  positivity

theorem pyRound_le_int {x : ℚ} {m : ℤ} (n : ℕ) (hx : x ≤ (m : ℚ)) :
    pyRound n x ≤ (m : ℚ) := by
  unfold pyRound
  have h1 : roundHalfEven (x * 10 ^ n) ≤ m * 10 ^ n := by
    apply roundHalfEven_le_int
    push_cast
    have hpow : (0 : ℚ) < 10 ^ n := by positivity
    calc x * 10 ^ n ≤ (m : ℚ) * 10 ^ n := by
          exact mul_le_mul_of_nonneg_right hx (le_of_lt hpow)
      _ = (m : ℚ) * 10 ^ n := rfl
  have h2 : (roundHalfEven (x * 10 ^ n) : ℚ) ≤ (m : ℚ) * 10 ^ n := by
    exact_mod_cast h1
  have hpow : (0 : ℚ) < 10 ^ n := by positivity
  rw [div_le_iff₀ hpow]
  exact h2

/-! ### Generic list facts used by the weight/sum arguments -/

theorem list_sum_sq_le_sq_sum (l : List ℚ) (h : ∀ x ∈ l, 0 ≤ x) :
    (l.map (fun x => x ^ 2)).sum ≤ l.sum ^ 2 := by
  induction l with
  | nil => simp
  | cons a t ih =>
    have ha : 0 ≤ a := h a (List.mem_cons_self a t)
    have ht : ∀ x ∈ t, 0 ≤ x := fun x hx => h x (List.mem_cons_of_mem a hx)
    have hts : 0 ≤ t.sum := List.sum_nonneg ht
    have := ih ht
    simp only [List.map_cons, List.sum_cons]
    nlinarith [mul_nonneg ha hts]

theorem list_sum_sq_lt_sq_sum (l : List ℚ) (hpos : ∀ x ∈ l, 0 < x)
    (hlen : 2 ≤ l.length) : (l.map (fun x => x ^ 2)).sum < l.sum ^ 2 := by
  match l, hlen with
  | a :: b :: t, _ =>
    have ha : 0 < a := hpos a (by simp)
    have hb : 0 < b := hpos b (by simp)
    have ht : ∀ x ∈ t, 0 ≤ x := fun x hx => le_of_lt (hpos x (by simp [hx]))
    have hts : 0 ≤ t.sum := List.sum_nonneg ht
    have htsq := list_sum_sq_le_sq_sum t ht
    simp only [List.map_cons, List.sum_cons]
    nlinarith [mul_nonneg (le_of_lt ha) hts, mul_nonneg (le_of_lt hb) hts,
      mul_pos ha hb]

theorem list_sum_pos' (l : List ℚ) (hpos : ∀ x ∈ l, 0 < x) (hne : l ≠ []) :
    0 < l.sum :=
  List.sum_pos l hpos hne

/-! ## `analysis/Python/report_generator.py` — `random_effects_meta`

Embedded from `report_generator.py` lines 23-66.  The scipy-based p-values
(`p_Q`, `p_pooled`, lines 42-49) depend on the external scipy/chi2 library
and are not modelled; the displayed dictionary rounds its entries
(`round(..., 4)` etc.) and exposes `se_pooled = sqrt(1/Σw_re)`,
`tau = sqrt(tau2)` — we carry the exact pre-sqrt quantities
(`sePooledSq` is the radicand of line 38) and prove facts about the
rounded values via `pyRound`.  The elementwise NumPy divisions
(lines 29-33, 36-38) never raise; the plain-float division on line 34,
`(Q - (k - 1)) / c`, raises `ZeroDivisionError` when `c == 0` and is
embedded in `Except`. -/

namespace ReportGen

structure DLCore where
  k : ℕ
  g_fixed : ℚ
  Q : ℚ
  c : ℚ
  tau2 : ℚ
  g_pooled : ℚ
  sePooledSq : ℚ
  I2 : ℚ
  deriving Repr, DecidableEq

def random_effects_meta (g se : List ℚ) : Except String DLCore :=
  let k := g.length
  if k = 0 then .error "No data"
  else
    let var := se.map (fun s => s ^ 2)
    let w_fixed := var.map (fun v => 1 / v)
    let sw := w_fixed.sum
    let g_fixed := (List.zipWith (fun wi gi => wi * gi) w_fixed g).sum / sw
    let Q := (List.zipWith (fun wi gi => wi * (gi - g_fixed) ^ 2) w_fixed g).sum
    let c := sw - (w_fixed.map (fun x => x ^ 2)).sum / sw
    if c = 0 then .error "ZeroDivisionError: float division by zero"
    else
      let tau2 := max 0 ((Q - ((k : ℚ) - 1)) / c)
      let w_re := var.map (fun v => 1 / (v + tau2))
      let g_pooled := (List.zipWith (fun wi gi => wi * gi) w_re g).sum / w_re.sum
      let sePooledSq := 1 / w_re.sum
      let I2 := if 0 < Q then max 0 ((Q - ((k : ℚ) - 1)) / Q * 100) else 0
      .ok { k := k, g_fixed := g_fixed, Q := Q, c := c, tau2 := tau2,
            g_pooled := g_pooled, sePooledSq := sePooledSq, I2 := I2 }

end ReportGen

/-! ### Spec-side DerSimonian-Laird formulas (from §4.2 of the spec) -/

namespace DLSpec

/-- Fixed-effect weights `w_i = 1/se_i²`. -/
def wFixed (se : List ℚ) : List ℚ := se.map (fun s => 1 / s ^ 2)

/-- Fixed-effect pooled mean `g_fixed = Σ(w_i·g_i)/Σw_i`. -/
def gFixed (g se : List ℚ) : ℚ :=
  (List.zipWith (fun wi gi => wi * gi) (wFixed se) g).sum / (wFixed se).sum

/-- Cochran's `Q = Σ w_i·(g_i - g_fixed)²`. -/
def Q (g se : List ℚ) : ℚ :=
  (List.zipWith (fun wi gi => wi * (gi - gFixed g se) ^ 2) (wFixed se) g).sum

/-- `c = Σw_i - Σw_i²/Σw_i`. -/
def c (se : List ℚ) : ℚ :=
  (wFixed se).sum - ((wFixed se).map (fun x => x ^ 2)).sum / (wFixed se).sum

/-- `tau² = max(0, (Q-df)/c)` with `df = k-1`. -/
def tau2 (g se : List ℚ) : ℚ :=
  max 0 ((Q g se - ((g.length : ℚ) - 1)) / c se)

/-- Random-effects weights `w_re_i = 1/(se_i² + tau²)`. -/
def wRE (g se : List ℚ) : List ℚ :=
  se.map (fun s => 1 / (s ^ 2 + tau2 g se))

/-- Pooled random-effects estimate `g_pooled = Σ(w_re_i·g_i)/Σw_re_i`. -/
def gPooled (g se : List ℚ) : ℚ :=
  (List.zipWith (fun wi gi => wi * gi) (wRE g se) g).sum / (wRE g se).sum

/-- `I² = max(0, (Q-df)/Q·100)` if `Q>0` else `0`. -/
def I2 (g se : List ℚ) : ℚ :=
  if 0 < Q g se then max 0 ((Q g se - ((g.length : ℚ) - 1)) / Q g se * 100) else 0

end DLSpec

section DLLemmas

theorem wFixed_pos {se : List ℚ} (hse : ∀ x ∈ se, 0 < x) :
    ∀ x ∈ DLSpec.wFixed se, 0 < x := by
  intro x hx
  rcases List.mem_map.mp hx with ⟨s, hs, rfl⟩
  have := hse s hs
  positivity

theorem dl_c_pos {g se : List ℚ} (hse : ∀ x ∈ se, 0 < x)
    (hlen : se.length = g.length) (hk : 2 ≤ g.length) :
    0 < DLSpec.c se := by
  have hw : ∀ x ∈ DLSpec.wFixed se, 0 < x := wFixed_pos hse
  have hwlen : (DLSpec.wFixed se).length = se.length := by
    simp [DLSpec.wFixed]
  have hwlen2 : 2 ≤ (DLSpec.wFixed se).length := by omega
  have hne : DLSpec.wFixed se ≠ [] := by
    intro h
    rw [h] at hwlen2
    simp at hwlen2
  have hsw : 0 < (DLSpec.wFixed se).sum := list_sum_pos' _ hw hne
  have hlt := list_sum_sq_lt_sq_sum (DLSpec.wFixed se) hw hwlen2
  have hdiv : ((DLSpec.wFixed se).map (fun x => x ^ 2)).sum / (DLSpec.wFixed se).sum
      < (DLSpec.wFixed se).sum := by
    rw [div_lt_iff₀ hsw]
    calc ((DLSpec.wFixed se).map (fun x => x ^ 2)).sum
        < (DLSpec.wFixed se).sum ^ 2 := hlt
      _ = (DLSpec.wFixed se).sum * (DLSpec.wFixed se).sum := sq ((DLSpec.wFixed se).sum) ▸ by ring
  unfold DLSpec.c
  linarith

end DLLemmas

theorem map_sq_inv (se : List ℚ) :
    (se.map (fun s => s ^ 2)).map (fun v => 1 / v) = DLSpec.wFixed se := by
  simp [DLSpec.wFixed, List.map_map]

theorem map_sq_inv_add (se : List ℚ) (t : ℚ) :
    (se.map (fun s => s ^ 2)).map (fun v => 1 / (v + t)) =
      se.map (fun s => 1 / (s ^ 2 + t)) := by
  simp [List.map_map]

/-- Under `k ≥ 2` and positive SEs, `random_effects_meta` takes its success
branch and returns exactly the spec's DerSimonian-Laird quantities. -/
theorem rem_eq_ok {g se : List ℚ} (hlen : se.length = g.length)
    (hse : ∀ x ∈ se, 0 < x) (hk : 2 ≤ g.length) :
    ReportGen.random_effects_meta g se =
      .ok { k := g.length, g_fixed := DLSpec.gFixed g se, Q := DLSpec.Q g se,
            c := DLSpec.c se, tau2 := DLSpec.tau2 g se,
            g_pooled := DLSpec.gPooled g se,
            sePooledSq := 1 / (DLSpec.wRE g se).sum, I2 := DLSpec.I2 g se } := by
  have hk0 : ¬ (g.length = 0) := by omega
  have hc : DLSpec.c se ≠ 0 := ne_of_gt (dl_c_pos hse hlen hk)
  have hc' : (DLSpec.wFixed se).sum -
      ((DLSpec.wFixed se).map (fun x => x ^ 2)).sum / (DLSpec.wFixed se).sum ≠ 0 := by
    unfold DLSpec.c at hc
    exact hc
  rw [ReportGen.random_effects_meta]
  simp only [map_sq_inv, map_sq_inv_add, if_neg hk0, if_neg hc']
  unfold DLSpec.I2 DLSpec.gPooled DLSpec.wRE DLSpec.tau2 DLSpec.Q DLSpec.gFixed
    DLSpec.c
  rfl

theorem dlspec_I2_bounds (g se : List ℚ) (hk : 2 ≤ g.length) :
    0 ≤ DLSpec.I2 g se ∧ DLSpec.I2 g se ≤ 100 := by
  unfold DLSpec.I2
  split
  · rename_i hQ
    constructor
    · exact le_max_left 0 _
    · apply max_le (by norm_num)
      have hkq : (1 : ℚ) ≤ (g.length : ℚ) := by
        exact_mod_cast Nat.one_le_of_lt hk
      have hdiv : (DLSpec.Q g se - ((g.length : ℚ) - 1)) / DLSpec.Q g se ≤ 1 := by
        rw [div_le_one hQ]
        linarith
      calc (DLSpec.Q g se - ((g.length : ℚ) - 1)) / DLSpec.Q g se * 100
          ≤ 1 * 100 := by
            exact mul_le_mul_of_nonneg_right hdiv (by norm_num)
        _ = 100 := by norm_num
  · norm_num

/-- C1: for `k ≥ 2` effect sizes with strictly positive standard errors,
`random_effects_meta` returns exactly the DerSimonian-Laird quantities of
the spec — fixed-effect weights `1/se²`, `Q`, `c = Σw - Σw²/Σw`,
`tau² = max(0, (Q-(k-1))/c)`, random-effects pooling and
`I² = max(0, (Q-(k-1))/Q·100)` for `Q>0` else `0` — the radicand of the
returned `se_pooled` is `1/Σw_re`; the returned `tau²` (also after the
4-decimal display rounding) is nonnegative and the returned `I²` (also
after its 1-decimal display rounding) lies in `[0, 100]`. -/
theorem c1_random_effects_meta_is_DL (g se : List ℚ)
    (hlen : se.length = g.length) (hse : ∀ x ∈ se, 0 < x)
    (hk : 2 ≤ g.length) :
    ∃ r : ReportGen.DLCore,
      ReportGen.random_effects_meta g se = .ok r ∧
      r.g_fixed = DLSpec.gFixed g se ∧
      r.Q = DLSpec.Q g se ∧
      r.c = DLSpec.c se ∧
      r.tau2 = max 0 ((DLSpec.Q g se - ((g.length : ℚ) - 1)) / DLSpec.c se) ∧
      r.g_pooled = DLSpec.gPooled g se ∧
      r.sePooledSq = 1 / (DLSpec.wRE g se).sum ∧
      r.I2 = DLSpec.I2 g se ∧
      0 ≤ r.tau2 ∧ 0 ≤ pyRound 4 r.tau2 ∧
      0 ≤ r.I2 ∧ r.I2 ≤ 100 ∧
      0 ≤ pyRound 1 r.I2 ∧ pyRound 1 r.I2 ≤ 100 := by
  refine ⟨_, rem_eq_ok hlen hse hk, rfl, rfl, rfl, rfl, rfl, rfl, rfl, ?_⟩
  have htau : (0 : ℚ) ≤ DLSpec.tau2 g se := le_max_left 0 _
  obtain ⟨hI0, hI100⟩ := dlspec_I2_bounds g se hk
  refine ⟨htau, pyRound_nonneg 4 htau, hI0, hI100, pyRound_nonneg 1 hI0, ?_⟩
  have : DLSpec.I2 g se ≤ ((100 : ℤ) : ℚ) := by exact_mod_cast hI100
  have := pyRound_le_int 1 this
  exact_mod_cast this

/-- Witness for C1 at the concrete input `g = [1/2, 3/10]`,
`se = [1/10, 1/5]`. -/
theorem c1_witness :
    ∃ r : ReportGen.DLCore,
      ReportGen.random_effects_meta [1/2, 3/10] [1/10, 1/5] = .ok r ∧
      r.g_fixed = DLSpec.gFixed [1/2, 3/10] [1/10, 1/5] ∧
      r.Q = DLSpec.Q [1/2, 3/10] [1/10, 1/5] ∧
      r.c = DLSpec.c [1/10, 1/5] ∧
      r.tau2 = max 0 ((DLSpec.Q [1/2, 3/10] [1/10, 1/5] -
        (([1/2, 3/10].length : ℚ) - 1)) / DLSpec.c [1/10, 1/5]) ∧
      r.g_pooled = DLSpec.gPooled [1/2, 3/10] [1/10, 1/5] ∧
      r.sePooledSq = 1 / (DLSpec.wRE [1/2, 3/10] [1/10, 1/5]).sum ∧
      r.I2 = DLSpec.I2 [1/2, 3/10] [1/10, 1/5] ∧
      0 ≤ r.tau2 ∧ 0 ≤ pyRound 4 r.tau2 ∧
      0 ≤ r.I2 ∧ r.I2 ≤ 100 ∧
      0 ≤ pyRound 1 r.I2 ∧ pyRound 1 r.I2 ≤ 100 :=
  c1_random_effects_meta_is_DL [1/2, 3/10] [1/10, 1/5] rfl
    (by intro x hx; fin_cases hx <;> norm_num) (by norm_num)

/-- C4 counterexample: at `k = 1` (a nonempty input the claim covers),
`c = w - w²/w` is exactly `0` and line 34's plain-float division raises
`ZeroDivisionError`; the call does not return a result dictionary. -/
theorem c4_counterexample :
    ReportGen.random_effects_meta [1/2] [1] =
      .error "ZeroDivisionError: float division by zero" := by
  rw [ReportGen.random_effects_meta]
  norm_num

/-- C4 amended: `random_effects_meta` is total for every input with `k ≥ 2`
effect sizes and strictly positive standard errors (it returns a result
dictionary, never an exception); for `k = 1` the `tau²` division raises
`ZeroDivisionError` because `c = 0`. -/
theorem c4_total_for_k_ge_2 (g se : List ℚ)
    (hlen : se.length = g.length) (hse : ∀ x ∈ se, 0 < x)
    (hk : 2 ≤ g.length) :
    ∃ r : ReportGen.DLCore, ReportGen.random_effects_meta g se = .ok r :=
  ⟨_, rem_eq_ok hlen hse hk⟩

/-- Witness for C4 (amended) at the concrete input `g = [1, -1/2]`,
`se = [1/2, 1/4]`. -/
theorem c4_witness :
    ∃ r : ReportGen.DLCore,
      ReportGen.random_effects_meta [1, -1/2] [1/2, 1/4] = .ok r :=
  c4_total_for_k_ge_2 [1, -1/2] [1/2, 1/4] rfl
    (by intro x hx; fin_cases hx <;> norm_num) (by norm_num)

/-! ## `scripts/figure_generation/generate_funnel_plots.py`

`random_effects_meta` (lines 28-53) here is the NumPy-only variant: it
returns `{}` on an empty input and never raises (all divisions are
NumPy-scalar divisions); `pooled_g`, `Q`, `I2`, `tau2` are rationals and
`se_pooled = sqrt(1/Σw_re)`, `ci = pooled_g ∓ 1.96·se_pooled` take a
square root — as before we carry the radicand `sePooledSq` exactly.

`trim_and_fill` (lines 113-196) iterates the L0 estimator with
`max_iter = 20`; `np.argsort` is embedded as a stable insertion sort on
indices (NumPy's default quicksort is unstable, so its tie order is
unspecified; every concrete input used below is tie-free in the places
where order matters). -/

namespace Funnel

structure MetaCore where
  pooled_g : ℚ
  sePooledSq : ℚ
  Q : ℚ
  df : ℤ
  I2 : ℚ
  tau2 : ℚ
  k : ℕ
  deriving Repr, DecidableEq

def random_effects_meta (g se : List ℚ) : Option MetaCore :=
  if g.length = 0 then none
  else
    let k := g.length
    let var := se.map (fun s => s ^ 2)
    let w_fixed := var.map (fun v => 1 / v)
    let sw := w_fixed.sum
    let g_fixed := (List.zipWith (fun wi gi => wi * gi) w_fixed g).sum / sw
    let Q := (List.zipWith (fun wi gi => wi * (gi - g_fixed) ^ 2) w_fixed g).sum
    let c := sw - (w_fixed.map (fun x => x ^ 2)).sum / sw
    let tau2 := max 0 ((Q - ((k : ℚ) - 1)) / c)
    let w_re := var.map (fun v => 1 / (v + tau2))
    let pooled_g := (List.zipWith (fun wi gi => wi * gi) w_re g).sum / w_re.sum
    let sePooledSq := 1 / w_re.sum
    let I2 := if 0 < Q then max 0 ((Q - ((k : ℚ) - 1)) / Q * 100) else 0
    some { pooled_g := pooled_g, sePooledSq := sePooledSq, Q := Q,
           df := (k : ℤ) - 1, I2 := I2, tau2 := tau2, k := k }

/-- `se_pooled = sqrt(1/Σw_re)` (line 43). -/
noncomputable def sePooled (m : MetaCore) : ℝ := Real.sqrt m.sePooledSq

/-- `ci_lower = pooled_g - 1.96·se_pooled` (line 50). -/
noncomputable def ciLower (m : MetaCore) : ℝ := (m.pooled_g : ℝ) - 1.96 * sePooled m

/-- `ci_upper = pooled_g + 1.96·se_pooled` (line 51). -/
noncomputable def ciUpper (m : MetaCore) : ℝ := (m.pooled_g : ℝ) + 1.96 * sePooled m

/-- `np.mean`. -/
def mean (l : List ℚ) : ℚ := l.sum / l.length

/-- `pooled.get('pooled_g', np.mean(g))` (lines 142-143 / 170-171). -/
def centerOf (g se : List ℚ) : ℚ :=
  match random_effects_meta g se with
  | some m => m.pooled_g
  | none => mean g

/-- Insert into a sorted list, before the first element not below `a`
(stable insertion). -/
def insertLe (le : α → α → Bool) (a : α) : List α → List α
  | [] => [a]
  | b :: t => if le a b then a :: b :: t else b :: insertLe le a t

/-- Stable insertion sort with a boolean `≤`. -/
def isort (le : α → α → Bool) : List α → List α
  | [] => []
  | a :: t => insertLe le a (isort le t)

/-- `np.argsort(keys)` — the index list sorted by key (stable). -/
def argsortQ (keys : List ℚ) : List ℕ :=
  isort (fun i j => decide (keys.getD i 0 ≤ keys.getD j 0))
    (List.range keys.length)

/-- Lines 146-161: the `T_n` rank sum.  `ranks = np.argsort(deviations)`
(or of `-deviations` for `side='right'`), `rank` of study `i` is the
position of `i` in that index list, and studies whose deviation has the
"wrong" sign contribute `rank + 1`. -/
def computeTn (side : String) (dev : List ℚ) : ℤ :=
  let ranksList := if side = "left" then argsortQ dev
                   else argsortQ (dev.map (fun d => -d))
  ((List.range dev.length).map (fun i =>
    if (side = "left" ∧ dev.getD i 0 < 0) ∨ (side = "right" ∧ 0 < dev.getD i 0)
    then ((ranksList.indexOf i : ℤ) + 1) else 0)).sum

/-- One round's `k0 = max(0, round((4*T_n - n(n+1))/(2n-1)))` (line 162),
deviations taken from the pooled center of the (unchanged) study set. -/
def computeK0 (g se : List ℚ) (side : String) : ℤ :=
  let center := centerOf g se
  let dev := g.map (fun x => x - center)
  let n := g.length
  let T_n := computeTn side dev
  max 0 (roundHalfEven
    ((4 * (T_n : ℚ) - (n : ℚ) * ((n : ℚ) + 1)) / (2 * (n : ℚ) - 1)))

/-- The `for iteration in range(max_iter)` loop of lines 136-166, as a
fuel recursion over the `(k0_prev, k0)` state; the fuel is `max_iter`, so
the loop body runs at most `max_iter` (= 20) times by construction. -/
def tfLoop (g se : List ℚ) (side : String) : ℕ → ℤ → ℤ → ℤ × ℤ
  | 0, p, c0 => (p, c0)
  | fuel + 1, p, c0 =>
    if c0 = p then (p, c0)
    else
      let knew := computeK0 g se side
      if (g.length : ℤ) ≤ knew then (c0, max 0 ((g.length : ℤ) - 1))
      else tfLoop g se side fuel c0 knew

/-- Lines 169-184: the augmented `(g, se)` that gets re-pooled when
`k0 > 0`.  For `side='left'` the mirrored values come from the `k0`
LARGEST studies (`np.sort(g)[::-1][:k0]`), while the imputed standard
errors are taken from the `k0` studies CLOSEST to the pooled center
(`se[np.argsort(np.abs(g - center))][:k0]`). -/
def tfAugment (g se : List ℚ) (side : String) (k0 : ℕ) : List ℚ × List ℚ :=
  let center := centerOf g se
  let sorted_g := if side = "left" then (isort (fun a b => decide (b ≤ a)) g).take k0
                  else (isort (fun a b => decide (a ≤ b)) g).take k0
  let imputed_g := sorted_g.map (fun x => 2 * center - x)
  let idxByAbsDev := argsortQ (g.map (fun x => |x - center|))
  let imputed_se := (idxByAbsDev.take k0).map (fun i => se.getD i 0)
  (g ++ imputed_g, se ++ imputed_se)

structure TrimFillResult where
  k0_imputed : ℤ
  adjusted : Option MetaCore
  converged : Bool
  deriving Repr, DecidableEq

def trim_and_fill (g se : List ℚ) (side : String) (max_iter : ℕ) :
    TrimFillResult :=
  let pr := tfLoop g se side max_iter (-1) 0
  let k0 := pr.2
  if 0 < k0 then
    let aug := tfAugment g se side k0.toNat
    { k0_imputed := k0, adjusted := random_effects_meta aug.1 aug.2,
      converged := decide (k0 = pr.1) }
  else
    { k0_imputed := k0, adjusted := random_effects_meta g se,
      converged := decide (k0 = pr.1) }

end Funnel

theorem strLeft_ne_strRight : ¬ (("left" : String) = "right") := by decide

/-- The trim-and-fill state loop stabilises: started from `(-1, 0)` it
reaches a fixed point within three rounds, so any fuel `≥ 3` (in
particular the code's `max_iter = 20`) produces the same final
`(k0_prev, k0)` state.  The round estimator `computeK0` does not depend
on the loop state because the study set is never modified inside the
loop. -/
theorem tfLoop_closed (g se : List ℚ) (side : String) (fuel : ℕ)
    (hk : 2 ≤ g.length) (hfuel : 3 ≤ fuel) :
    Funnel.tfLoop g se side fuel (-1) 0 =
      if (g.length : ℤ) ≤ Funnel.computeK0 g se side then
        (0, (g.length : ℤ) - 1)
      else if Funnel.computeK0 g se side = 0 then (0, 0)
      else (Funnel.computeK0 g se side, Funnel.computeK0 g se side) := by
  obtain ⟨m, rfl⟩ : ∃ m, fuel = m + 3 := ⟨fuel - 3, by omega⟩
  have hmax : max 0 ((g.length : ℤ) - 1) = (g.length : ℤ) - 1 := by
    rw [max_eq_right]; omega
  rw [Funnel.tfLoop]
  rw [if_neg (by decide : ¬ ((0 : ℤ) = -1))]
  by_cases h1 : (g.length : ℤ) ≤ Funnel.computeK0 g se side
  · simp only [if_pos h1, hmax]
  · rw [if_neg h1, if_neg h1]
    by_cases h2 : Funnel.computeK0 g se side = 0
    · rw [Funnel.tfLoop, if_pos h2, if_pos h2, h2]
    · rw [if_neg h2, Funnel.tfLoop, if_neg h2, if_neg h1, Funnel.tfLoop,
        if_pos rfl]

/-- C6 amended: for every input with `k ≥ 2` studies, `trim_and_fill`
iterates at most 20 rounds (the loop state is already stable after three,
so the cap never binds); each round's `k0` is
`max(0, round((4·T_n − n(n+1))/(2n−1)))` with `T_n` the rank sum of
wrong-signed deviations from the DL pooled center; it stops when `k0`
stabilises (reported as `converged = true` with `k0` imputed) or when
`k0 ≥ k` (clamped to `k−1` and reported as `converged = false`);
imputation mirrors the `k0` largest studies around the pooled center
(`imputed_g = 2·center − g`) but pairs them with the standard errors of
the `k0` studies CLOSEST to the center — not the mirrored studies'
matched standard errors — and re-pools the augmented set. -/
theorem c6_trim_and_fill_structure (g se : List ℚ) (hk : 2 ≤ g.length) :
    (∀ fuel, 3 ≤ fuel → Funnel.tfLoop g se "left" fuel (-1) 0 =
        Funnel.tfLoop g se "left" 20 (-1) 0) ∧
    Funnel.computeK0 g se "left" = max 0 (roundHalfEven
      ((4 * (Funnel.computeTn "left"
          (g.map (fun x => x - Funnel.centerOf g se)) : ℚ)
        - (g.length : ℚ) * ((g.length : ℚ) + 1)) /
        (2 * (g.length : ℚ) - 1))) ∧
    (Funnel.computeK0 g se "left" < (g.length : ℤ) →
      (Funnel.trim_and_fill g se "left" 20).k0_imputed =
          Funnel.computeK0 g se "left" ∧
        (Funnel.trim_and_fill g se "left" 20).converged = true) ∧
    ((g.length : ℤ) ≤ Funnel.computeK0 g se "left" →
      (Funnel.trim_and_fill g se "left" 20).k0_imputed = (g.length : ℤ) - 1 ∧
        (Funnel.trim_and_fill g se "left" 20).converged = false) ∧
    (0 < (Funnel.trim_and_fill g se "left" 20).k0_imputed →
      (Funnel.trim_and_fill g se "left" 20).adjusted =
        Funnel.random_effects_meta
          (Funnel.tfAugment g se "left"
            (Funnel.trim_and_fill g se "left" 20).k0_imputed.toNat).1
          (Funnel.tfAugment g se "left"
            (Funnel.trim_and_fill g se "left" 20).k0_imputed.toNat).2) ∧
    ((Funnel.trim_and_fill g se "left" 20).k0_imputed ≤ 0 →
      (Funnel.trim_and_fill g se "left" 20).adjusted =
        Funnel.random_effects_meta g se) := by
  have hcl := tfLoop_closed g se "left" 20 hk (by norm_num)
  refine ⟨?_, rfl, ?_, ?_, ?_, ?_⟩
  · intro fuel hfuel
    rw [tfLoop_closed g se "left" fuel hk hfuel, hcl]
  · intro hlt
    have hnle : ¬ ((g.length : ℤ) ≤ Funnel.computeK0 g se "left") := by omega
    rw [Funnel.trim_and_fill]
    rw [hcl, if_neg hnle]
    by_cases h0 : Funnel.computeK0 g se "left" = 0
    · simp only [if_pos h0, h0]
      norm_num
    · simp only [if_neg h0]
      have hK0 : 0 ≤ Funnel.computeK0 g se "left" := le_max_left 0 _
      have hpos : 0 < Funnel.computeK0 g se "left" := by omega
      simp only [if_pos hpos]
      exact ⟨by simp, by simp⟩
  · intro hle
    rw [Funnel.trim_and_fill, hcl, if_pos hle]
    have hpos : (0 : ℤ) < (g.length : ℤ) - 1 := by omega
    simp only [if_pos hpos]
    refine ⟨by simp, ?_⟩
    simp only [decide_eq_false_iff_not]
    omega
  · intro hpos
    rw [Funnel.trim_and_fill] at hpos ⊢
    split at hpos
    · rename_i h
      simp only [if_pos h]
    · rename_i h
      simp only at hpos
      exact absurd hpos h
  · intro hle
    rw [Funnel.trim_and_fill] at hle ⊢
    split at hle
    · rename_i h
      simp only at hle
      omega
    · rename_i h
      simp only [if_neg h]

/-- C6 counterexample: on `g = [0,0,0,1]`, `se = [1,1,1,2]` (side
`'left'`), one study is imputed, mirroring the study `g = 1` — whose
matched standard error is `2` — yet the augmented set pairs the imputed
`g = -11/13` with standard error `1` (the SE of a study closest to the
pooled center `1/13`), so the adjusted estimate is NOT the re-pooling of
the mirrored studies with their matched SEs: the code's adjusted pooled
g is `-31/221` while the matched-SE re-pooling gives `1/91`. -/
theorem c6_counterexample :
    (Funnel.trim_and_fill [0,0,0,1] [1,1,1,2] "left" 20).k0_imputed = 1 ∧
    Funnel.tfAugment [0,0,0,1] [1,1,1,2] "left" 1 =
      ([0,0,0,1,-11/13], [1,1,1,2,1]) ∧
    (Funnel.trim_and_fill [0,0,0,1] [1,1,1,2] "left" 20).adjusted =
      Funnel.random_effects_meta [0,0,0,1,-11/13] [1,1,1,2,1] ∧
    (Funnel.random_effects_meta [0,0,0,1,-11/13] [1,1,1,2,1]).map
      (fun m => m.pooled_g) = some (-31/221) ∧
    (Funnel.random_effects_meta [0,0,0,1,-11/13] [1,1,1,2,2]).map
      (fun m => m.pooled_g) = some (1/91) ∧
    (Funnel.trim_and_fill [0,0,0,1] [1,1,1,2] "left" 20).adjusted ≠
      Funnel.random_effects_meta [0,0,0,1,-11/13] [1,1,1,2,2] := by
  have hK : Funnel.computeK0 [0,0,0,1] [1,1,1,2] "left" = 1 := by
    norm_num [Funnel.computeK0, Funnel.computeTn, Funnel.centerOf,
      Funnel.random_effects_meta, Funnel.argsortQ, Funnel.isort,
      Funnel.insertLe, roundHalfEven, List.indexOf, List.findIdx,
      List.findIdx.go, List.range_succ, cond_eq_if, beq_iff_eq,
      strLeft_ne_strRight, Int.fract]
  have hloop : Funnel.tfLoop [0,0,0,1] [1,1,1,2] "left" 20 (-1) 0 = (1, 1) := by
    simp only [Funnel.tfLoop, hK]
    norm_num
  have haug : Funnel.tfAugment [0,0,0,1] [1,1,1,2] "left" 1 =
      ([0,0,0,1,-11/13], [1,1,1,2,1]) := by
    norm_num [Funnel.tfAugment, Funnel.centerOf, Funnel.random_effects_meta,
      Funnel.argsortQ, Funnel.isort, Funnel.insertLe, List.range_succ,
      cond_eq_if, beq_iff_eq, strLeft_ne_strRight, abs_of_nonneg,
      abs_of_nonpos]
  have hmeta1 : (Funnel.random_effects_meta [0,0,0,1,-11/13] [1,1,1,2,1]).map
      (fun m => m.pooled_g) = some (-31/221) := by
    norm_num [Funnel.random_effects_meta]
  have hmeta2 : (Funnel.random_effects_meta [0,0,0,1,-11/13] [1,1,1,2,2]).map
      (fun m => m.pooled_g) = some (1/91) := by
    norm_num [Funnel.random_effects_meta]
  have hadj : (Funnel.trim_and_fill [0,0,0,1] [1,1,1,2] "left" 20).adjusted =
      Funnel.random_effects_meta [0,0,0,1,-11/13] [1,1,1,2,1] := by
    simp [Funnel.trim_and_fill, hloop, haug]
  refine ⟨by simp [Funnel.trim_and_fill, hloop], haug, hadj, hmeta1, hmeta2, ?_⟩
  intro h
  rw [hadj] at h
  have := congrArg (Option.map (fun m : Funnel.MetaCore => m.pooled_g)) h
  rw [hmeta1, hmeta2] at this
  simp only [Option.some.injEq] at this
  norm_num at this

/-- Witness for C6 (amended) at `g = [0,0,0,1]`, `se = [1,1,1,2]`:
the round estimator gives `k0 = 1 < k = 4`, so the loop stabilises and
one study is imputed with `converged = true`. -/
theorem c6_witness :
    (Funnel.trim_and_fill [0,0,0,1] [1,1,1,2] "left" 20).k0_imputed =
      Funnel.computeK0 [0,0,0,1] [1,1,1,2] "left" ∧
    (Funnel.trim_and_fill [0,0,0,1] [1,1,1,2] "left" 20).converged = true :=
  (c6_trim_and_fill_structure [0,0,0,1] [1,1,1,2] (by norm_num)).2.2.1
    (by
      have hK : Funnel.computeK0 [0,0,0,1] [1,1,1,2] "left" = 1 := by
        norm_num [Funnel.computeK0, Funnel.computeTn, Funnel.centerOf,
          Funnel.random_effects_meta, Funnel.argsortQ, Funnel.isort,
          Funnel.insertLe, roundHalfEven, List.indexOf, List.findIdx,
          List.findIdx.go, List.range_succ, cond_eq_if, beq_iff_eq,
          strLeft_ne_strRight, Int.fract]
      rw [hK]
      norm_num)

/-! ## `scripts/ai_coding_pipeline/phase4_consensus.py` —
`ConsensusBuilder._synthesize_effect_sizes` (lines 194-256)

A model's result dictionary either carries an `'error'` key (the model is
skipped) or a `verified_effect_sizes` list.  Grouping by
`outcome_label` uses a Python dict, which preserves insertion order, so
it is embedded as an association list with append-at-end insertion.
`n_models = len(values)` counts *all* entries collected for a label —
including entries whose `hedges_g` is null — while the averaged
`g_values` keep only the non-null ones. -/

namespace Phase4

structure VerifiedES where
  outcome_label : Option String
  hedges_g : Option ℚ
  se_g : Option ℚ
  conversion_valid : Option Bool
  deriving Repr, DecidableEq

inductive ModelOutcome where
  | err : ModelOutcome
  | ok (verified_effect_sizes : List VerifiedES) : ModelOutcome
  deriving Repr, DecidableEq

structure LabelValue where
  model : String
  hedges_g : Option ℚ
  se_g : Option ℚ
  valid : Bool
  deriving Repr, DecidableEq

/-- Lines 215-220: the per-model record appended under a label. -/
def mkLabelValue (name : String) (es : VerifiedES) : LabelValue :=
  { model := name, hedges_g := es.hedges_g, se_g := es.se_g,
    valid := es.conversion_valid.getD true }

/-- Append `v` to `label`'s bucket (dict insertion order preserved). -/
def addEntry (acc : List (String × List LabelValue)) (label : String)
    (v : LabelValue) : List (String × List LabelValue) :=
  match acc with
  | [] => [(label, [v])]
  | (l, vs) :: t =>
    if l = label then (l, vs ++ [v]) :: t else (l, vs) :: addEntry t label v

/-- Lines 206-220: collect effect sizes by outcome label across the
models, skipping errored models. -/
def collectLabelEffects (results : List (String × ModelOutcome)) :
    List (String × List LabelValue) :=
  results.foldl (fun acc p =>
    match p.2 with
    | .err => acc
    | .ok esList => esList.foldl (fun acc' es =>
        addEntry acc' (es.outcome_label.getD "unknown") (mkLabelValue p.1 es))
        acc) []

structure ConsensusES where
  outcome_label : String
  hedges_g_consensus : ℚ
  se_g_consensus : Option ℚ
  g_values_per_model : List ℚ
  n_models_agree : ℕ
  consensus_quality : String
  flag : Option String
  deriving Repr, DecidableEq

/-- Lines 223-254: the loop body over one `(label, values)` bucket;
`None` models the `continue` when no entry has a non-null `hedges_g`.
The Python truthiness test `if se_consensus` maps a mean of exactly `0`
to `None` as well. -/
def consensusForLabel (label : String) (values : List LabelValue) :
    Option ConsensusES :=
  let n_models := values.length
  let valid_values := values.filter (fun v => v.hedges_g.isSome)
  if valid_values.isEmpty then none
  else
    let g_values := valid_values.filterMap (fun v => v.hedges_g)
    let se_values := (valid_values.filter (fun v => v.se_g.isSome)).filterMap
      (fun v => v.se_g)
    let g_consensus := g_values.sum / (g_values.length : ℚ)
    let se_consensus : Option ℚ :=
      if se_values.isEmpty then none
      else some (se_values.sum / (se_values.length : ℚ))
    let qf : String × Option String :=
      if n_models = 3 then ("3/3_agree", none)
      else if n_models = 2 then ("2/3_agree", some "majority_consensus")
      else ("1/3_only", some "human_review_needed")
    some { outcome_label := label,
           hedges_g_consensus := pyRound 4 g_consensus,
           se_g_consensus :=
             match se_consensus with
             | none => none
             | some m => if m = 0 then none else some (pyRound 4 m),
           g_values_per_model := g_values,
           n_models_agree := n_models,
           consensus_quality := qf.1,
           flag := qf.2 }

def synthesize_effect_sizes (results : List (String × ModelOutcome)) :
    List ConsensusES :=
  (collectLabelEffects results).filterMap (fun p => consensusForLabel p.1 p.2)

end Phase4

theorem roundHalfEven_intCast (m : ℤ) : roundHalfEven ((m : ℚ)) = m := by
  unfold roundHalfEven
  norm_num

theorem pyRound_of_cast (n : ℕ) (x : ℚ) (m : ℤ) (h : x * 10 ^ n = (m : ℚ)) :
    pyRound n x = (m : ℚ) / 10 ^ n := by
  unfold pyRound
  rw [h, roundHalfEven_intCast]

theorem filterMap_g_of_filter (l : List Phase4.LabelValue) :
    (l.filter (fun v => v.hedges_g.isSome)).filterMap (fun v => v.hedges_g) =
      l.filterMap (fun v => v.hedges_g) := by
  induction l with
  | nil => rfl
  | cons a t ih =>
    by_cases h : a.hedges_g.isSome = true
    · obtain ⟨x, hx⟩ := Option.isSome_iff_exists.mp h
      simp [List.filter_cons, h, List.filterMap_cons, hx, ih]
    · have hnone : a.hedges_g = none := by
        cases hx : a.hedges_g
        · rfl
        · rw [hx] at h; simp at h
      simp [List.filter_cons, h, List.filterMap_cons, hnone, ih]

/-- C2 amended: a label bucket with no non-null `hedges_g` produces no
consensus entry; otherwise the entry averages the non-null g's (rounded
to 4 decimals) and separately the available non-null se's (a mean of
exactly 0, like an absent mean, is emitted as null by the Python
truthiness test) — but `n_models_agree` and the
`consensus_quality`/`flag` tier count ALL entries collected for the
label, including those whose `hedges_g` is null, not just the models
that contributed a non-null g.  The builder's output is the bucket list
filtered through this per-label rule. -/
theorem c2_synthesize_effect_sizes (results : List (String × Phase4.ModelOutcome))
    (label : String) (values : List Phase4.LabelValue) :
    (values.all (fun v => v.hedges_g.isNone) = true →
      Phase4.consensusForLabel label values = none) ∧
    ((∃ v ∈ values, v.hedges_g.isSome) →
      ∃ r, Phase4.consensusForLabel label values = some r ∧
        r.outcome_label = label ∧
        r.hedges_g_consensus = pyRound 4
          ((values.filterMap (fun v => v.hedges_g)).sum /
            ((values.filterMap (fun v => v.hedges_g)).length : ℚ)) ∧
        r.se_g_consensus =
          (if ((values.filter (fun v => v.hedges_g.isSome)).filter
                (fun v => v.se_g.isSome)).isEmpty then none
           else
             (fun ses : List ℚ =>
               if ses.sum / (ses.length : ℚ) = 0 then none
               else some (pyRound 4 (ses.sum / (ses.length : ℚ))))
             (((values.filter (fun v => v.hedges_g.isSome)).filter
                (fun v => v.se_g.isSome)).filterMap (fun v => v.se_g))) ∧
        r.n_models_agree = values.length ∧
        r.consensus_quality =
          (if values.length = 3 then "3/3_agree"
           else if values.length = 2 then "2/3_agree" else "1/3_only") ∧
        r.flag =
          (if values.length = 3 then none
           else if values.length = 2 then some "majority_consensus"
           else some "human_review_needed")) ∧
    Phase4.synthesize_effect_sizes results =
      (Phase4.collectLabelEffects results).filterMap
        (fun p => Phase4.consensusForLabel p.1 p.2) := by
  refine ⟨?_, ?_, rfl⟩
  · intro hall
    have hfil : values.filter (fun v => v.hedges_g.isSome) = [] := by
      rw [List.filter_eq_nil_iff]
      intro a ha
      have := List.all_eq_true.mp hall a ha
      simp only [Option.isNone_iff_eq_none] at this
      simp [this]
    unfold Phase4.consensusForLabel
    rw [hfil]
    rfl
  · rintro ⟨v, hv, hsome⟩
    have hne : (values.filter (fun v => v.hedges_g.isSome)).isEmpty = false := by
      have hmem : v ∈ values.filter (fun v => v.hedges_g.isSome) :=
        List.mem_filter.mpr ⟨hv, hsome⟩
      exact List.isEmpty_eq_false.mpr (List.ne_nil_of_mem hmem)
    unfold Phase4.consensusForLabel
    simp only [hne, Bool.false_eq_true, if_false]
    refine ⟨_, rfl, rfl, ?_, ?_, rfl, ?_, ?_⟩
    · rw [filterMap_g_of_filter]
    · rcases hE : ((values.filter (fun v => v.hedges_g.isSome)).filter
          (fun v => v.se_g.isSome)).filterMap (fun v => v.se_g) with _ | ⟨s, t⟩
      · have hemp : ((values.filter (fun v => v.hedges_g.isSome)).filter
            (fun v => v.se_g.isSome)).isEmpty = true := by
          cases hF : (values.filter (fun v => v.hedges_g.isSome)).filter
              (fun v => v.se_g.isSome) with
          | nil => rfl
          | cons a t' =>
            exfalso
            have hmemF : a ∈ (values.filter (fun v => v.hedges_g.isSome)).filter
                (fun v => v.se_g.isSome) := by
              rw [hF]; exact List.mem_cons_self a t'
            have ha : a.se_g.isSome = true := (List.mem_filter.mp hmemF).2
            rcases hsg : a.se_g with _ | s0
            · rw [hsg] at ha; simp at ha
            · have hmem2 : s0 ∈ ((values.filter (fun v => v.hedges_g.isSome)).filter
                  (fun v => v.se_g.isSome)).filterMap (fun v => v.se_g) :=
                List.mem_filterMap.mpr ⟨a, hmemF, hsg⟩
              rw [hE] at hmem2
              simp at hmem2
        rw [hE, hemp]
        simp
      · have hemp : ((values.filter (fun v => v.hedges_g.isSome)).filter
            (fun v => v.se_g.isSome)).isEmpty = false := by
          apply List.isEmpty_eq_false.mpr
          intro hF
          rw [hF] at hE
          simp at hE
        rw [hE, hemp]
        simp [List.isEmpty_cons]
    · by_cases h3 : values.length = 3
      · simp [h3]
      · by_cases h2 : values.length = 2
        · simp [h3, h2]
        · simp [h3, h2]
    · by_cases h3 : values.length = 3
      · simp [h3]
      · by_cases h2 : values.length = 2
        · simp [h3, h2]
        · simp [h3, h2]

/-- Concrete consensus input: all three models report outcome "test1";
Claude and GPT-4o report `g = 0.5, se = 0.1`, Groq reports the label
with a null `hedges_g`. -/
def c2ExampleInput : List (String × Phase4.ModelOutcome) :=
  [("claude", .ok [⟨some "test1", some (1/2), some (1/10), none⟩]),
   ("gpt4o",  .ok [⟨some "test1", some (1/2), some (1/10), none⟩]),
   ("groq",   .ok [⟨some "test1", none, none, none⟩])]

/-- C2 counterexample: only two of the three models contribute a
non-null `hedges_g` for "test1", yet the consensus entry reports
`n_models_agree = 3` with quality "3/3_agree" and no flag — the tier
counts every entry collected for the label (`n_models = len(values)`),
not the models that contributed a non-null g, contradicting the claimed
`2 → "2/3_agree"` with flag "majority_consensus". -/
theorem c2_counterexample :
    Phase4.synthesize_effect_sizes c2ExampleInput =
      [{ outcome_label := "test1", hedges_g_consensus := 1/2,
         se_g_consensus := some (1/10), g_values_per_model := [1/2, 1/2],
         n_models_agree := 3, consensus_quality := "3/3_agree",
         flag := none }] ∧
    (Phase4.collectLabelEffects c2ExampleInput).map
      (fun p => (p.1, (p.2.filter (fun v => v.hedges_g.isSome)).length)) =
      [("test1", 2)] ∧
    ¬ (("3/3_agree" : String) = "2/3_agree") := by
  have hcoll : Phase4.collectLabelEffects c2ExampleInput =
      [("test1",
        [⟨"claude", some (1/2), some (1/10), true⟩,
         ⟨"gpt4o", some (1/2), some (1/10), true⟩,
         ⟨"groq", none, none, true⟩])] := by
    norm_num [Phase4.collectLabelEffects, Phase4.addEntry, Phase4.mkLabelValue,
      c2ExampleInput]
  have hpy1 : pyRound 4 ((1:ℚ)/2) = 1/2 := by
    rw [pyRound_of_cast 4 (1/2) 5000 (by norm_num)]; norm_num
  have hpy2 : pyRound 4 ((1:ℚ)/10) = 1/10 := by
    rw [pyRound_of_cast 4 (1/10) 1000 (by norm_num)]; norm_num
  refine ⟨?_, ?_, by decide⟩
  · rw [Phase4.synthesize_effect_sizes, hcoll]
    norm_num [Phase4.consensusForLabel, hpy1, hpy2, List.filterMap_cons,
      List.filterMap_nil]
    simp
    rw [show ((10:ℚ))⁻¹ = 1/10 by norm_num]
    exact hpy2
  · rw [hcoll]
    norm_num

/-- Witness for C2 (amended), at the spec's own scenario: all three
models agree exactly on `g = 0.5`, `se = 0.1` for outcome "test1". -/
theorem c2_witness :
    ∃ r, Phase4.consensusForLabel "test1"
        [⟨"claude", some (1/2), some (1/10), true⟩,
         ⟨"gpt4o", some (1/2), some (1/10), true⟩,
         ⟨"groq", some (1/2), some (1/10), true⟩] = some r ∧
      r.n_models_agree = 3 ∧ r.consensus_quality = "3/3_agree" ∧
      r.flag = none ∧ r.hedges_g_consensus = 1/2 := by
  obtain ⟨r, hr, -, hg, -, hn, hq, hf⟩ :=
    (c2_synthesize_effect_sizes [] "test1"
      [⟨"claude", some (1/2), some (1/10), true⟩,
       ⟨"gpt4o", some (1/2), some (1/10), true⟩,
       ⟨"groq", some (1/2), some (1/10), true⟩]).2.1
      ⟨⟨"claude", some (1/2), some (1/10), true⟩, by simp, rfl⟩
  refine ⟨r, hr, by simp [hn], by simp [hq], by simp [hf], ?_⟩
  rw [hg]
  have hpy1 : pyRound 4 ((1:ℚ)/2) = 1/2 := by
    rw [pyRound_of_cast 4 (1/2) 5000 (by norm_num)]; norm_num
  convert hpy1 using 2
  norm_num [List.filterMap_cons, List.filterMap_nil]

/-! ## `scripts/ai_coding_pipeline/phase6_qa_final.py` — the six quality
gates and `run_all_gates`

Rows carry the columns the gates read; the loader's pass-through columns
(`n_models_agree`, `learning_domain`, `country`, …) are never read by any
gate and are omitted.  A pandas `NaN`/missing value is `none`.  Python's
`str.lower` is embedded as `strLower` (character-wise `Char.toLower`) and
the substring test `'pre' in design` as `containsChars`.  `str(nan)` is
the literal string `"nan"`.  Messages built with f-strings are embedded
as fixed tags (their numeric interpolation is display-only). -/

def strLower (s : String) : String := ⟨s.data.map Char.toLower⟩

def startsWithChars : List Char → List Char → Bool
  | [], _ => true
  | _ :: _, [] => false
  | a :: t, b :: u => a == b && startsWithChars t u

def containsChars (needle hay : List Char) : Bool :=
  match hay with
  | [] => needle.isEmpty
  | _ :: t => startsWithChars needle hay || containsChars needle t

namespace Phase6

structure Row where
  study_id : String
  outcome_label : String
  hedges_g : Option ℚ
  se_g : Option ℚ
  design_type : Option String
  n_treatment : Option ℚ
  n_control : Option ℚ
  n_total : Option ℚ
  outcome_type : Option String
  oversight_level : Option String
  architecture : Option String
  agency_level : Option String
  deriving Repr, DecidableEq

/-- `pd.unique` / `Series.unique`: first occurrences, original order. -/
def dedupFirst (l : List String) : List String :=
  l.foldl (fun acc x => if x ∈ acc then acc else acc ++ [x]) []

/-- First row of a study (`df[df['study_id'] == sid].iloc[0]`). -/
def firstRowFor (df : List Row) (sid : String) : Option Row :=
  df.find? (fun r => r.study_id == sid)

/-- `drop_duplicates('study_id')` — keep the first row per study. -/
def dropDupByStudy (df : List Row) : List Row :=
  df.foldl (fun acc r =>
    if acc.any (fun x => x.study_id == r.study_id) then acc else acc ++ [r]) []

def colMin (l : List ℚ) : Option ℚ :=
  l.foldl (fun acc x =>
    match acc with | none => some x | some m => some (min m x)) none

def colMax (l : List ℚ) : Option ℚ :=
  l.foldl (fun acc x =>
    match acc with | none => some x | some m => some (max m x)) none

/-- pandas `median` (skipna): middle of the sorted values, or the mean of
the two middle ones. -/
def medianQ (l : List ℚ) : Option ℚ :=
  let s := Funnel.isort (fun a b => decide (a ≤ b)) l
  if s.isEmpty then none
  else if s.length % 2 = 1 then some (s.getD (s.length / 2) 0)
  else some ((s.getD (s.length / 2 - 1) 0 + s.getD (s.length / 2) 0) / 2)

def gSomes (df : List Row) : List ℚ := df.filterMap (fun r => r.hedges_g)

structure Gate1Details where
  max_allowed : ℚ
  n_out_of_range : ℕ
  n_valid : ℕ
  g_min : Option ℚ
  g_max : Option ℚ
  g_median : Option ℚ
  flagged_entries : List (String × String × ℚ)
  deriving Repr, DecidableEq

/-- Gate 1 (lines 104-133): every non-null `|g|` within `max_g`. -/
def gate1 (max_g : ℚ) (df : List Row) : Bool × Gate1Details :=
  let out := df.filter (fun r =>
    match r.hedges_g with
    | some g => decide (max_g < |g|)
    | none => false)
  (out.length == 0,
   { max_allowed := max_g, n_out_of_range := out.length,
     n_valid := (df.filter (fun r => r.hedges_g.isSome)).length,
     g_min := if df.isEmpty then none else colMin (gSomes df),
     g_max := if df.isEmpty then none else colMax (gSomes df),
     g_median := if df.isEmpty then none else medianQ (gSomes df),
     flagged_entries := out.map (fun r =>
       (r.study_id, r.outcome_label, r.hedges_g.getD 0)) })

/-- `'pre' in design or 'post' in design` on
`str(design_type).lower()` (lines 156-158); a missing value prints as
`"nan"`. -/
def isPrepostDesign (design_type : Option String) : Bool :=
  let design := strLower (match design_type with | some s => s | none => "nan")
  containsChars "pre".toList design.toList ||
    containsChars "post".toList design.toList

/-- Gate 2 per-study issue list (lines 153-167): pre-post variants
require `n_total ≥ 2·min_n`; otherwise each present group size must be
`≥ min_n`; a missing (None/NaN) value is not checked. -/
def gate2StudyIssues (min_n : ℚ) (r : Row) : List String :=
  if isPrepostDesign r.design_type then
    match r.n_total with
    | some nt => if nt < min_n * 2 then ["n_total"] else []
    | none => []
  else
    (match r.n_treatment with
     | some nt => if nt < min_n then ["n_treatment"] else []
     | none => []) ++
    (match r.n_control with
     | some nc => if nc < min_n then ["n_control"] else []
     | none => [])

structure Gate2Details where
  min_n_per_group : ℚ
  n_studies_checked : ℕ
  n_issues : ℕ
  issues : List (String × String)
  deriving Repr, DecidableEq

/-- Gate 2 (lines 135-180). -/
def gate2 (min_n : ℚ) (df : List Row) : Bool × Gate2Details :=
  let sids := dedupFirst (df.map (fun r => r.study_id))
  let issues := sids.flatMap (fun sid =>
    match firstRowFor df sid with
    | some r => (gate2StudyIssues min_n r).map (fun m => (sid, m))
    | none => [])
  (issues.length == 0,
   { min_n_per_group := min_n, n_studies_checked := sids.length,
     n_issues := issues.length, issues := issues })

def VALID_DESIGNS : List String :=
  ["randomized_controlled_trial", "rct", "quasi_experimental", "pre_post",
   "pretest_posttest"]

def VALID_OUTCOME_TYPES : List String :=
  ["learning_outcome", "achievement", "performance", "test_score",
   "knowledge", "skill", "competency", "grade"]

structure Gate3Details where
  valid_designs : List String
  n_invalid_design : ℕ
  n_missing_design : ℕ
  invalid_studies : List (String × Option String)
  missing_design_studies : List String
  deriving Repr, DecidableEq

/-- Gate 3 (lines 182-217): study-level design vocabulary check. -/
def gate3 (df : List Row) : Bool × Gate3Details :=
  let sd := dropDupByStudy df
  let invalid := sd.filter (fun r =>
    match r.design_type with
    | some s => !(VALID_DESIGNS.contains (strLower s)) && !(s == "")
    | none => false)
  let missing := sd.filter (fun r =>
    match r.design_type with
    | some s => s == ""
    | none => true)
  (invalid.length == 0 && missing.length == 0,
   { valid_designs := VALID_DESIGNS, n_invalid_design := invalid.length,
     n_missing_design := missing.length,
     invalid_studies := invalid.map (fun r => (r.study_id, r.design_type)),
     missing_design_studies := missing.map (fun r => r.study_id) })

structure Gate4Details where
  valid_outcome_types : List String
  n_invalid : ℕ
  n_missing : ℕ
  invalid_outcomes : List (String × Option String)
  missing_outcome_studies : List String
  deriving Repr, DecidableEq

/-- Gate 4 (lines 219-254): study-level outcome-type vocabulary check. -/
def gate4 (df : List Row) : Bool × Gate4Details :=
  let sd := dropDupByStudy df
  let invalid := sd.filter (fun r =>
    match r.outcome_type with
    | some s => !(VALID_OUTCOME_TYPES.contains (strLower s)) && !(s == "")
    | none => false)
  let missing := sd.filter (fun r =>
    match r.outcome_type with
    | some s => s == ""
    | none => true)
  (invalid.length == 0 && missing.length == 0,
   { valid_outcome_types := VALID_OUTCOME_TYPES, n_invalid := invalid.length,
     n_missing := missing.length,
     invalid_outcomes := invalid.map (fun r => (r.study_id, r.outcome_type)),
     missing_outcome_studies := missing.map (fun r => r.study_id) })

def requiredFieldProbes : List (String × (Row → Bool)) :=
  [("hedges_g", fun r => r.hedges_g.isNone),
   ("se_g", fun r => r.se_g.isNone),
   ("design_type", fun r => r.design_type.isNone),
   ("outcome_type", fun r => r.outcome_type.isNone),
   ("oversight_level", fun r => r.oversight_level.isNone),
   ("architecture", fun r => r.architecture.isNone),
   ("agency_level", fun r => r.agency_level.isNone)]

structure Gate5Details where
  required_fields : List String
  n_incomplete_fields : ℕ
  incomplete_fields : List (String × ℕ × List String)
  total_rows : ℕ
  deriving Repr, DecidableEq

/-- Gate 5 (lines 256-292): required fields non-null on every row; a
field with missing entries records the count and up to 10 study ids. -/
def gate5 (df : List Row) : Bool × Gate5Details :=
  let incomplete := requiredFieldProbes.filterMap (fun p =>
    let missing := df.filter p.2
    if missing.length == 0 then none
    else some (p.1, missing.length,
      (dedupFirst (missing.map (fun r => r.study_id))).take 10))
  (incomplete.length == 0,
   { required_fields := requiredFieldProbes.map (fun p => p.1),
     n_incomplete_fields := incomplete.length,
     incomplete_fields := incomplete, total_rows := df.length })

structure Gate6Details where
  n_duplicate_rows : ℕ
  n_duplicate_groups : ℕ
  duplicates : List (String × String × ℕ)
  deriving Repr, DecidableEq

def rowKey (r : Row) : String × String := (r.study_id, r.outcome_label)

def keyCount (df : List Row) (k : String × String) : ℕ :=
  (df.filter (fun r => rowKey r == k)).length

def dedupPairs (l : List (String × String)) : List (String × String) :=
  l.foldl (fun acc x => if x ∈ acc then acc else acc ++ [x]) []

def strPairLe (a b : String × String) : Bool :=
  if a.1 = b.1 then !(decide (b.2 < a.2)) else decide (a.1 < b.1)

/-- Gate 6 (lines 294-323): rows duplicated on
`(study_id, outcome_label)` (pandas `duplicated(keep=False)`), with the
duplicate groups listed in sorted key order (pandas `groupby` sorts). -/
def gate6 (df : List Row) : Bool × Gate6Details :=
  let dups := df.filter (fun r => decide (1 < keyCount df (rowKey r)))
  let dupList := (Funnel.isort strPairLe (dedupPairs (dups.map rowKey))).map
    (fun k => (k.1, k.2, keyCount df k))
  (dups.length == 0,
   { n_duplicate_rows := dups.length, n_duplicate_groups := dupList.length,
     duplicates := dupList })

inductive GateDetails where
  | d1 : Gate1Details → GateDetails
  | d2 : Gate2Details → GateDetails
  | d3 : Gate3Details → GateDetails
  | d4 : Gate4Details → GateDetails
  | d5 : Gate5Details → GateDetails
  | d6 : Gate6Details → GateDetails
  deriving Repr, DecidableEq

structure GateResult where
  gate : String
  passed : Bool
  details : GateDetails
  deriving Repr, DecidableEq

structure QASummary where
  n_studies : ℕ
  n_effect_sizes : ℕ
  n_valid_g : ℕ
  g_mean : Option ℚ
  g_var : Option ℚ
  g_range : Option (Option ℚ × Option ℚ)
  deriving Repr, DecidableEq

/-- `dataset_summary` (lines 354-364): `g_mean` is the 3-decimal-rounded
mean of the non-null g's (nan, i.e. none, when there are none or the
frame is empty); the code displays `g_sd = round(sqrt(var), 3)` — we
carry the sample variance `g_var` (ddof = 1), of which the displayed
value is a monotone image; `g_range` is the rounded (min, max). -/
def mkSummary (df : List Row) : QASummary :=
  let gs := gSomes df
  let m := gs.sum / (gs.length : ℚ)
  { n_studies := (dedupFirst (df.map (fun r => r.study_id))).length,
    n_effect_sizes := df.length,
    n_valid_g := gs.length,
    g_mean := if df.isEmpty then none
      else if gs.isEmpty then none else some (pyRound 3 m),
    g_var := if df.isEmpty then none
      else if gs.length < 2 then none
      else some ((gs.map (fun x => (x - m) ^ 2)).sum / ((gs.length : ℚ) - 1)),
    g_range := if df.isEmpty then none
      else some ((colMin gs).map (pyRound 3), (colMax gs).map (pyRound 3)) }

structure QAReport where
  all_gates_passed : Bool
  gate_results : List GateResult
  dataset_summary : QASummary
  deriving Repr, DecidableEq

/-- The six gates in their registered order (lines 39-46); `max_g` and
`min_n` come from `config['quality_targets']` (defaults 5.0 and 10). -/
def gatesOf (max_g min_n : ℚ) : List (String × (List Row → Bool × GateDetails)) :=
  [("Gate 1: Effect Size Range", fun df =>
      ((gate1 max_g df).1, .d1 (gate1 max_g df).2)),
   ("Gate 2: Sample Size Adequacy", fun df =>
      ((gate2 min_n df).1, .d2 (gate2 min_n df).2)),
   ("Gate 3: Design Validity", fun df => ((gate3 df).1, .d3 (gate3 df).2)),
   ("Gate 4: Outcome Type Check", fun df => ((gate4 df).1, .d4 (gate4 df).2)),
   ("Gate 5: Completeness Check", fun df => ((gate5 df).1, .d5 (gate5 df).2)),
   ("Gate 6: Duplicate Check", fun df => ((gate6 df).1, .d6 (gate6 df).2))]

/-- `run_all_gates` (lines 325-367).  Each gate's
`audit_logger.log_quality_check` call is modelled by threading an
explicit append-only audit log through the run (the logger is the only
cross-run state the checker touches besides the wall-clock
`qa_timestamp`, which the report carries for display only and which is
not modelled).  The returned report is paired with the grown log. -/
def run_all_gates (max_g min_n : ℚ) (df : List Row)
    (auditLog : List GateResult) : QAReport × List GateResult :=
  let step := (gatesOf max_g min_n).foldl
    (fun (acc : List GateResult × Bool × List GateResult) p =>
      let pr := p.2 df
      let gr : GateResult := { gate := p.1, passed := pr.1, details := pr.2 }
      (acc.1 ++ [gr], acc.2.1 && pr.1, acc.2.2 ++ [gr]))
    ([], true, auditLog)
  ({ all_gates_passed := step.2.1, gate_results := step.1,
     dataset_summary := mkSummary df }, step.2.2)

end Phase6

/-- C9: the QA report is a pure function of the dataset — running
`run_all_gates` twice (with any intervening audit-log state) yields an
identical `all_gates_passed` and identical per-gate results/details; the
report's `all_gates_passed` is the conjunction of the six gates' passed
flags, the gate results are exactly the six gates in order, and the run
only appends the six per-gate records to the audit log (the dataset is
only read, never mutated or filtered). -/
theorem c9_run_all_gates_idempotent (max_g min_n : ℚ) (df : List Phase6.Row)
    (log1 log2 : List Phase6.GateResult) :
    (Phase6.run_all_gates max_g min_n df log1).1 =
      (Phase6.run_all_gates max_g min_n df log2).1 ∧
    (Phase6.run_all_gates max_g min_n df
        (Phase6.run_all_gates max_g min_n df log1).2).1 =
      (Phase6.run_all_gates max_g min_n df log1).1 ∧
    (Phase6.run_all_gates max_g min_n df log1).1.all_gates_passed =
      ((Phase6.gate1 max_g df).1 && (Phase6.gate2 min_n df).1 &&
       (Phase6.gate3 df).1 && (Phase6.gate4 df).1 && (Phase6.gate5 df).1 &&
       (Phase6.gate6 df).1) ∧
    (Phase6.run_all_gates max_g min_n df log1).1.gate_results.map
      (fun r => (r.gate, r.passed)) =
      [("Gate 1: Effect Size Range", (Phase6.gate1 max_g df).1),
       ("Gate 2: Sample Size Adequacy", (Phase6.gate2 min_n df).1),
       ("Gate 3: Design Validity", (Phase6.gate3 df).1),
       ("Gate 4: Outcome Type Check", (Phase6.gate4 df).1),
       ("Gate 5: Completeness Check", (Phase6.gate5 df).1),
       ("Gate 6: Duplicate Check", (Phase6.gate6 df).1)] ∧
    (Phase6.run_all_gates max_g min_n df log1).2 =
      log1 ++ (Phase6.run_all_gates max_g min_n df log1).1.gate_results := by
  refine ⟨rfl, rfl, ?_, rfl, ?_⟩
  · simp [Phase6.run_all_gates, Phase6.gatesOf]
  · simp [Phase6.run_all_gates, Phase6.gatesOf]

theorem mem_foldl_dedup (l : List String) (acc : List String) (x : String) :
    x ∈ l.foldl (fun acc x => if x ∈ acc then acc else acc ++ [x]) acc ↔
      x ∈ acc ∨ x ∈ l := by
  induction l generalizing acc with
  | nil => simp
  | cons a t ih =>
    rw [List.foldl_cons, ih]
    by_cases h : a ∈ acc
    · simp only [if_pos h, List.mem_cons]
      constructor
      · rintro (h1 | h2)
        · exact Or.inl h1
        · exact Or.inr (Or.inr h2)
      · rintro (h1 | h2 | h3)
        · exact Or.inl h1
        · exact Or.inl (h2 ▸ h)
        · exact Or.inr h3
    · simp only [if_neg h, List.mem_append, List.mem_singleton, List.mem_cons]
      tauto

theorem mem_dedupFirst (l : List String) (x : String) :
    x ∈ Phase6.dedupFirst l ↔ x ∈ l := by
  unfold Phase6.dedupFirst
  simpa using mem_foldl_dedup l [] x

/-- The spec's §4.5 gate-2 requirement, per study: a pre-post variant
(case-insensitive substring match on "pre"/"post" in `design_type`)
requires `n_total ≥ 2·min_n`; any other design requires
`n_treatment ≥ min_n` and `n_control ≥ min_n`; a value that is absent is
not checked here (missingness is gate 5's concern). -/
def specSampleSizeViolated (min_n : ℚ) (r : Phase6.Row) : Prop :=
  if Phase6.isPrepostDesign r.design_type then
    ∃ nt, r.n_total = some nt ∧ nt < 2 * min_n
  else
    (∃ x, r.n_treatment = some x ∧ x < min_n) ∨
    (∃ x, r.n_control = some x ∧ x < min_n)

theorem gate2StudyIssues_iff (min_n : ℚ) (r : Phase6.Row) :
    (∃ m, m ∈ Phase6.gate2StudyIssues min_n r) ↔
      specSampleSizeViolated min_n r := by
  unfold Phase6.gate2StudyIssues specSampleSizeViolated
  by_cases hpp : Phase6.isPrepostDesign r.design_type
  · simp only [if_pos hpp]
    rcases hnt : r.n_total with _ | nt
    · simp
    · by_cases hlt : nt < min_n * 2
      · simp only [if_pos hlt]
        constructor
        · intro
          exact ⟨nt, rfl, by linarith⟩
        · intro
          exact ⟨"n_total", by simp⟩
      · simp only [if_neg hlt]
        constructor
        · rintro ⟨m, hm⟩
          simp at hm
        · rintro ⟨nt', hnt', hlt'⟩
          rw [Option.some_inj] at hnt'
          subst hnt'
          exact absurd (by linarith : nt < min_n * 2) hlt
  · simp only [if_neg hpp]
    constructor
    · rintro ⟨m, hm⟩
      rw [List.mem_append] at hm
      rcases hm with hm | hm
      · rcases hnt : r.n_treatment with _ | x
        · rw [hnt] at hm
          simp at hm
        · rw [hnt] at hm
          by_cases hlt : x < min_n
          · exact Or.inl ⟨x, rfl, hlt⟩
          · simp [hlt] at hm
      · rcases hnc : r.n_control with _ | x
        · rw [hnc] at hm
          simp at hm
        · rw [hnc] at hm
          by_cases hlt : x < min_n
          · exact Or.inr ⟨x, rfl, hlt⟩
          · simp [hlt] at hm
    · rintro (⟨x, hx, hlt⟩ | ⟨x, hx, hlt⟩)
      · exact ⟨"n_treatment", by rw [hx]; simp [hlt]⟩
      · exact ⟨"n_control", by rw [hx]; simp [hlt]⟩

/-- The spec's gate-2 scenario study: a pre-post study with
`n_total = 15`. -/
def prepostExampleRow : Phase6.Row :=
  { study_id := "S1", outcome_label := "test1", hedges_g := some (1/2),
    se_g := some (1/10), design_type := some "pre_post",
    n_treatment := none, n_control := none, n_total := some 15,
    outcome_type := some "learning_outcome",
    oversight_level := some "full_agency",
    architecture := some "llm_agent", agency_level := some "high" }

/-- The same study reclassified as an RCT with
`n_treatment = n_control = 12`. -/
def rctExampleRow : Phase6.Row :=
  { prepostExampleRow with
    design_type := some "rct",
    n_treatment := some 12, n_control := some 12 }

/-- C7: gate 2 records an issue for a study exactly when the spec's
sample-size requirement is violated on that study's values (pre-post
variants by substring match need `n_total ≥ 2·min_n`, others need both
group sizes `≥ min_n`; missing values are not checked here); in
particular the pre-post scenario study with `n_total = 15` fails the
gate and its RCT reclassification with `n_treatment = n_control = 12`
passes. -/
theorem c7_gate2_sample_size (min_n : ℚ) (df : List Phase6.Row) (sid : String)
    (r : Phase6.Row) (hfind : Phase6.firstRowFor df sid = some r) :
    ((∃ m, (sid, m) ∈ (Phase6.gate2 min_n df).2.issues) ↔
      specSampleSizeViolated min_n r) ∧
    (Phase6.gate2 10 [prepostExampleRow]).1 = false ∧
    (Phase6.gate2 10 [rctExampleRow]).1 = true := by
  have hrmem : r ∈ df := List.mem_of_find?_eq_some hfind
  have hrid : r.study_id = sid := by
    have := List.find?_some hfind
    simpa using this
  have hsids : sid ∈ Phase6.dedupFirst (df.map (fun x => x.study_id)) := by
    rw [mem_dedupFirst]
    exact List.mem_map.mpr ⟨r, hrmem, hrid⟩
  have hissues : (Phase6.gate2 min_n df).2.issues =
      (Phase6.dedupFirst (df.map (fun x => x.study_id))).flatMap (fun sid' =>
        match Phase6.firstRowFor df sid' with
        | some r' => (Phase6.gate2StudyIssues min_n r').map (fun m => (sid', m))
        | none => []) := rfl
  refine ⟨?_, ?_, ?_⟩
  · rw [← gate2StudyIssues_iff]
    constructor
    · rintro ⟨m, hm⟩
      rw [hissues, List.mem_flatMap] at hm
      obtain ⟨sid', hsid', hmem⟩ := hm
      rcases hf : Phase6.firstRowFor df sid' with _ | r'
      · rw [hf] at hmem
        simp at hmem
      · rw [hf] at hmem
        obtain ⟨m', hm', heq⟩ := List.mem_map.mp hmem
        obtain ⟨h1, h2⟩ := Prod.mk.injEq .. |>.mp heq
        subst h1
        rw [hfind] at hf
        rw [Option.some_inj] at hf
        subst hf
        exact ⟨m', hm'⟩
    · rintro ⟨m, hm⟩
      refine ⟨m, ?_⟩
      rw [hissues, List.mem_flatMap]
      refine ⟨sid, hsids, ?_⟩
      rw [hfind]
      exact List.mem_map.mpr ⟨m, hm, rfl⟩
  · have hpp : Phase6.isPrepostDesign (some "pre_post") = true := by decide
    norm_num [Phase6.gate2, Phase6.gate2StudyIssues, Phase6.dedupFirst,
      Phase6.firstRowFor, prepostExampleRow, hpp]
  · have hpp : Phase6.isPrepostDesign (some "rct") = false := by decide
    norm_num [Phase6.gate2, Phase6.gate2StudyIssues, Phase6.dedupFirst,
      Phase6.firstRowFor, rctExampleRow, prepostExampleRow, hpp]

/-- Witness for C7: the pre-post scenario study violates the spec
requirement (`15 < 2·10`) and gate 2 indeed records an issue for it. -/
theorem c7_witness :
    specSampleSizeViolated 10 prepostExampleRow ∧
    (∃ m, ("S1", m) ∈ (Phase6.gate2 10 [prepostExampleRow]).2.issues) := by
  have hviol : specSampleSizeViolated 10 prepostExampleRow := by
    unfold specSampleSizeViolated
    rw [if_pos (show Phase6.isPrepostDesign prepostExampleRow.design_type = true
      from by decide)]
    exact ⟨15, rfl, by norm_num⟩
  exact ⟨hviol,
    ((c7_gate2_sample_size 10 [prepostExampleRow] "S1" prepostExampleRow
      rfl).1).mpr hviol⟩

/-! ## `scripts/ai_coding_pipeline/utils/effect_size_calculator.py`

Values reaching the calculator from a JSON-ish record are embedded as
`PyVal`: `num q` is any value `float()`/`int()` accept (ints, floats,
numeric strings), `null` is Python `None`, and `nonNum` is any other
value, on which `float()`/`int()`/comparisons raise.  Converted effect
sizes and standard errors involve `np.sqrt` and live in `ℝ`.  A plain
Python division by an int/float zero raises `ZeroDivisionError` (guarded
in `Except`); a NumPy-float division by zero and `np.sqrt` of a negative
radicand instead produce inf/nan silently — those corners (reachable
only through pathological inputs such as zero pooled SDs or `|r| ≥ 1`)
are embedded with the total junk-valued `ℝ` operations and noted inline;
no claim's hypotheses reach them.  Issue/warning strings built with
f-strings are embedded as fixed tags. -/

namespace Calc

inductive PyVal where
  | num (q : ℚ)
  | null
  | nonNum
  deriving Repr, DecidableEq

abbrev PyDict := List (String × PyVal)

def zdeMsg : String := "ZeroDivisionError: division by zero"

def pyFloat : PyVal → Except String ℚ
  | .num q => .ok q
  | .null => .error "TypeError: float() argument must be a number"
  | .nonNum => .error "ValueError: could not convert value to float"

/-- `int(v)` — truncates toward zero on floats. -/
def pyInt : PyVal → Except String ℤ
  | .num q => .ok (q.num / (q.den : ℤ))
  | .null => .error "TypeError: int() argument must be a number"
  | .nonNum => .error "ValueError: invalid literal for int()"

/-- A raw value used directly in a comparison or arithmetic. -/
def pyNum : PyVal → Except String ℚ
  | .num q => .ok q
  | .null => .error "TypeError: unsupported operand type for comparison"
  | .nonNum => .error "TypeError: unsupported operand type for comparison"

/-- `v // 2` (Python floor division; float//int gives a float). -/
def pyFloorDiv2 : PyVal → Except String ℚ
  | .num q => .ok ((⌊q / 2⌋ : ℤ) : ℚ)
  | .null => .error "TypeError: unsupported operand type for floor division"
  | .nonNum => .error "TypeError: unsupported operand type for floor division"

/-- `data[k]` — raises `KeyError` when absent. -/
def pyGetItem (data : PyDict) (k : String) : Except String PyVal :=
  match List.lookup k data with
  | some v => .ok v
  | none => .error ("KeyError: " ++ k)

/-- `k in data and data[k] is not None` (cases 1 and 2 of the dispatch). -/
def hasNonNull (data : PyDict) (k : String) : Bool :=
  match List.lookup k data with
  | some .null => false
  | some _ => true
  | none => false

/-- `k in data` (cases 3-7 of the dispatch check presence only). -/
def hasKey (data : PyDict) (k : String) : Bool := (List.lookup k data).isSome

/-- Lines 17-39.  `j`'s denominator `4·(n1+n2-2)-1` is odd, hence never
zero for integer inputs; the variance expression's two divisions raise
on `n1·n2 = 0` (int/int) resp. `n1+n2 = 0`. -/
noncomputable def cohens_d_to_hedges_g (d : ℝ) (n1 n2 : ℤ) :
    Except String (ℝ × ℝ) :=
  let df := n1 + n2 - 2
  let j : ℝ := 1 - 3 / (4 * (df : ℝ) - 1)
  let g := d * j
  let n_total := n1 + n2
  if n1 * n2 = 0 then .error zdeMsg
  else if n_total = 0 then .error zdeMsg
  else .ok (g, Real.sqrt ((n_total : ℝ) / ((n1 : ℝ) * (n2 : ℝ)) +
    g ^ 2 / (2 * (n_total : ℝ))))

/-- Lines 41-67.  The division by `df1+df2` raises on zero; the division
by a zero `pooled_sd` is a NumPy-float division (inf, no raise) and is
junk-valued here. -/
noncomputable def means_to_hedges_g (m1 m2 sd1 sd2 : ℝ) (n1 n2 : ℤ) :
    Except String (ℝ × ℝ) :=
  let df1 := n1 - 1
  let df2 := n2 - 1
  if df1 + df2 = 0 then .error zdeMsg
  else
    let pooled_sd := Real.sqrt (((df1 : ℝ) * sd1 ^ 2 + (df2 : ℝ) * sd2 ^ 2) /
      ((df1 : ℝ) + (df2 : ℝ)))
    cohens_d_to_hedges_g ((m1 - m2) / pooled_sd) n1 n2

/-- Lines 69-100.  `(m_post-m_pre)/sd_avg` is a plain float division
(raises on zero); the SE divisions raise on `n = 0`. -/
noncomputable def prepost_to_hedges_g (m_pre m_post sd_pre sd_post : ℝ)
    (n : ℤ) (r : ℝ) : Except String (ℝ × ℝ) :=
  let sd_avg := (sd_pre + sd_post) / 2
  if sd_avg = 0 then .error zdeMsg
  else
    let d := (m_post - m_pre) / sd_avg
    let j : ℝ := 1 - 3 / (4 * ((n : ℝ) - 1) - 1)
    let g := d * j
    if n = 0 then .error zdeMsg
    else .ok (g, Real.sqrt (2 * (1 - r) / (n : ℝ) + g ^ 2 / (2 * (n : ℝ))))

/-- Lines 102-119.  `(n1+n2)/(n1*n2)` is an int/int division. -/
noncomputable def t_to_hedges_g (t : ℝ) (n1 n2 : ℤ) : Except String (ℝ × ℝ) :=
  if n1 * n2 = 0 then .error zdeMsg
  else cohens_d_to_hedges_g
    (t * Real.sqrt (((n1 : ℝ) + (n2 : ℝ)) / ((n1 : ℝ) * (n2 : ℝ)))) n1 n2

/-- Lines 121-137.  `np.sqrt(f)` never raises (nan for `f < 0`). -/
noncomputable def f_to_hedges_g (f : ℝ) (n1 n2 : ℤ) : Except String (ℝ × ℝ) :=
  t_to_hedges_g (Real.sqrt f) n1 n2

/-- Lines 139-159.  `2r/np.sqrt(1-r²)` is a NumPy-float division (no
raise, junk at `|r| ≥ 1`); `n // 2` floors. -/
noncomputable def r_to_hedges_g (r : ℝ) (n : ℤ) : Except String (ℝ × ℝ) :=
  let d := 2 * r / Real.sqrt (1 - r ^ 2)
  let n1 := Int.fdiv n 2
  cohens_d_to_hedges_g d n1 n1

/-- Lines 161-177. -/
noncomputable def hedges_g_variance (g : ℝ) (n1 n2 : ℤ) : Except String ℝ :=
  if n1 * n2 = 0 then .error zdeMsg
  else if n1 + n2 = 0 then .error zdeMsg
  else .ok (((n1 : ℝ) + (n2 : ℝ)) / ((n1 : ℝ) * (n2 : ℝ)) +
    g ^ 2 / (2 * ((n1 : ℝ) + (n2 : ℝ))))

structure ValidationOut where
  valid : Bool
  issues : List String
  warnings : List String
  g : ℝ
  se : ℝ
  ci_95 : ℝ × ℝ
  n1 : ℚ
  n2 : ℚ

/-- Lines 179-232.  The issue list checks `|g| > max_g`, `n1 < min_n`,
`n2 < min_n` (the sample sizes raise `TypeError` if non-numeric);
`sqrt(2/(n1+n2))` and `4/min(n1,n2)` raise `ZeroDivisionError` on zero
denominators; the SE magnitude comparisons only produce warnings; there
is NO check that `se` is positive.  `valid` is `len(issues) == 0` and
`ci_95 = [g - 1.96·se, g + 1.96·se]` literally. -/
noncomputable def validate_effect_size (g se : ℝ) (n1v n2v : PyVal)
    (max_g : ℝ) (min_n : ℚ) : Except String ValidationOut := do
  let issues1 : List String := if max_g < |g| then ["es_exceeds_max"] else []
  let q1 ← pyNum n1v
  let issues2 := issues1 ++ (if q1 < min_n then ["n1_below_min"] else [])
  let q2 ← pyNum n2v
  let issues3 := issues2 ++ (if q2 < min_n then ["n2_below_min"] else [])
  if q1 + q2 = 0 then throw zdeMsg
  let expected_min_se := Real.sqrt ((2 : ℝ) / ((q1 : ℝ) + (q2 : ℝ)))
  let warns1 : List String :=
    if se < expected_min_se * 0.5 then ["se_small"] else []
  if min q1 q2 = 0 then throw zdeMsg
  let expected_max_se := Real.sqrt ((4 : ℝ) / ((min q1 q2 : ℚ) : ℝ))
  let warns2 := warns1 ++ (if expected_max_se < se then ["se_large"] else [])
  return { valid := issues3.isEmpty, issues := issues3, warnings := warns2,
           g := g, se := se, ci_95 := (g - 1.96 * se, g + 1.96 * se),
           n1 := q1, n2 := q2 }

structure ExtractResult where
  g : Option ℝ
  se : Option ℝ
  method : Option String
  valid : Bool
  issues : List String
  warnings : Option (List String)
  ci_95 : Option (ℝ × ℝ)
  n1 : Option ℚ
  n2 : Option ℚ

/-- Lines 245-251: the initial result dict; an `Option` field that is
`none` models a KEY that is absent from the dict (`g`, `se`, `method`
are present from the start, with value `None` — their `Option` is the
value; `warnings`, `ci_95`, `n1`, `n2` are keys added only by the
validation update). -/
def emptyResult : ExtractResult :=
  { g := none, se := none, method := none, valid := false, issues := [],
    warnings := none, ci_95 := none, n1 := none, n2 := none }

inductive ConvertOut where
  | noMatch
  | failed (msg : String)
  | converted (method : String) (g se : ℝ)

def toConvertOut (meth : String) (x : Except String (ℝ × ℝ)) : ConvertOut :=
  match x with
  | .ok p => .converted meth p.1 p.2
  | .error m => .failed m

/-- Lines 253-315: the `elif` dispatch chain in source order — the first
matching shape is converted; an exception caught during conversion
leaves the result's `g`/`se`/`method` unset (the single `result.update`
for a case runs only after its conversion succeeds). -/
noncomputable def convertStage (data : PyDict) : ConvertOut :=
  if hasNonNull data "hedges_g" then
    toConvertOut "direct_hedges_g" (do
      let v0 ← pyGetItem data "hedges_g"
      let gq ← pyFloat v0
      let seq ← pyFloat ((List.lookup "se_g" data).getD
        ((List.lookup "se" data).getD (.num 0)))
      if seq = 0 ∧ hasKey data "n1" ∧ hasKey data "n2" then
        let n1 ← pyGetItem data "n1" >>= pyInt
        let n2 ← pyGetItem data "n2" >>= pyInt
        let v ← hedges_g_variance ((gq : ℚ) : ℝ) n1 n2
        pure (((gq : ℚ) : ℝ), Real.sqrt v)
      else
        pure (((gq : ℚ) : ℝ), ((seq : ℚ) : ℝ)))
  else if hasNonNull data "cohens_d" then
    toConvertOut "cohen_d_conversion" (do
      let d ← pyGetItem data "cohens_d" >>= pyFloat
      let n1 ← pyGetItem data "n1" >>= pyInt
      let n2 ← pyGetItem data "n2" >>= pyInt
      cohens_d_to_hedges_g ((d : ℚ) : ℝ) n1 n2)
  else if ["m1", "m2", "sd1", "sd2", "n1", "n2"].all (hasKey data) then
    toConvertOut "means_sds" (do
      let m1 ← pyGetItem data "m1" >>= pyFloat
      let m2 ← pyGetItem data "m2" >>= pyFloat
      let sd1 ← pyGetItem data "sd1" >>= pyFloat
      let sd2 ← pyGetItem data "sd2" >>= pyFloat
      let n1 ← pyGetItem data "n1" >>= pyInt
      let n2 ← pyGetItem data "n2" >>= pyInt
      means_to_hedges_g ((m1 : ℚ) : ℝ) ((m2 : ℚ) : ℝ) ((sd1 : ℚ) : ℝ)
        ((sd2 : ℚ) : ℝ) n1 n2)
  else if ["m_pre", "m_post", "sd_pre", "sd_post", "n"].all (hasKey data) then
    toConvertOut "prepost" (do
      let mPre ← pyGetItem data "m_pre" >>= pyFloat
      let mPost ← pyGetItem data "m_post" >>= pyFloat
      let sdPre ← pyGetItem data "sd_pre" >>= pyFloat
      let sdPost ← pyGetItem data "sd_post" >>= pyFloat
      let n ← pyGetItem data "n" >>= pyInt
      let r ← pyFloat ((List.lookup "r_prepost" data).getD (.num (1/2)))
      prepost_to_hedges_g ((mPre : ℚ) : ℝ) ((mPost : ℚ) : ℝ)
        ((sdPre : ℚ) : ℝ) ((sdPost : ℚ) : ℝ) n ((r : ℚ) : ℝ))
  else if hasKey data "t" && hasKey data "n1" && hasKey data "n2" then
    toConvertOut "t_statistic" (do
      let t ← pyGetItem data "t" >>= pyFloat
      let n1 ← pyGetItem data "n1" >>= pyInt
      let n2 ← pyGetItem data "n2" >>= pyInt
      t_to_hedges_g ((t : ℚ) : ℝ) n1 n2)
  else if hasKey data "f" && hasKey data "n1" && hasKey data "n2" then
    toConvertOut "f_statistic" (do
      let f ← pyGetItem data "f" >>= pyFloat
      let n1 ← pyGetItem data "n1" >>= pyInt
      let n2 ← pyGetItem data "n2" >>= pyInt
      f_to_hedges_g ((f : ℚ) : ℝ) n1 n2)
  else if hasKey data "r" && hasKey data "n" then
    toConvertOut "correlation" (do
      let r ← pyGetItem data "r" >>= pyFloat
      let n ← pyGetItem data "n" >>= pyInt
      r_to_hedges_g ((r : ℚ) : ℝ) n)
  else .noMatch

/-- Lines 318-324: `n1 = data.get('n1', data.get('n', 0) // 2)` — the
default expression is evaluated eagerly (it can raise even when `'n1'`
is present), then validation runs with `max_g = 5.0`, `min_n = 10`. -/
noncomputable def validateStepCore (data : PyDict) (g se : ℝ) :
    Except String ValidationOut := do
  let d1 ← (match List.lookup "n" data with
    | some v => (pyFloorDiv2 v).map PyVal.num
    | none => .ok (PyVal.num 0))
  let n1v := (List.lookup "n1" data).getD d1
  let d2 ← (match List.lookup "n" data with
    | some v => (pyFloorDiv2 v).map PyVal.num
    | none => .ok (PyVal.num 0))
  let n2v := (List.lookup "n2" data).getD d2
  validate_effect_size g se n1v n2v 5 10

/-- Lines 234-330: dispatch, then validation (`result['g']` is non-None
in every converted case), with the `try/except` returning the
partially-updated result plus an `"Extraction failed: ..."` issue. -/
noncomputable def extract_effect_size (data : PyDict) : ExtractResult :=
  match convertStage data with
  | .noMatch =>
    { emptyResult with issues := ["No recognized effect size format found"] }
  | .failed m =>
    { emptyResult with issues := ["Extraction failed: " ++ m] }
  | .converted meth g se =>
    let res1 := { emptyResult with
                  g := some g, se := some se, method := some meth }
    match validateStepCore data g se with
    | .error m =>
      { res1 with issues := res1.issues ++ ["Extraction failed: " ++ m] }
    | .ok v =>
      { res1 with
        g := some v.g, se := some v.se, valid := v.valid,
        issues := v.issues, warnings := some v.warnings,
        ci_95 := some v.ci_95, n1 := some v.n1, n2 := some v.n2 }

/-- The dispatch priority order of the spec (§4.1): direct g → Cohen's d
→ means/SDs → pre-post → t → F → r, first field-presence match wins. -/
def firstShape (data : PyDict) : Option String :=
  (([("direct_hedges_g", hasNonNull data "hedges_g"),
     ("cohen_d_conversion", hasNonNull data "cohens_d"),
     ("means_sds", ["m1", "m2", "sd1", "sd2", "n1", "n2"].all (hasKey data)),
     ("prepost", ["m_pre", "m_post", "sd_pre", "sd_post", "n"].all
       (hasKey data)),
     ("t_statistic", hasKey data "t" && hasKey data "n1" && hasKey data "n2"),
     ("f_statistic", hasKey data "f" && hasKey data "n1" && hasKey data "n2"),
     ("correlation", hasKey data "r" && hasKey data "n")]).find?
    (fun p => p.2)).map (fun p => p.1)

end Calc

/-- C5: for `n1 + n2 > 2`, the t-statistic path equals the composed
`cohens_d_to_hedges_g(t·sqrt((n1+n2)/(n1·n2)))`, the F path equals
`t_to_hedges_g(sqrt(F))`, the means path equals the composition through
`d = (m1-m2)/pooled_sd` with
`pooled_sd = sqrt(((n1-1)·sd1² + (n2-1)·sd2²)/(n1+n2-2))`, and every
successful d→g conversion applies the small-sample correction
`J = 1 - 3/(4·(n1+n2-2) - 1)`. -/
theorem c5_conversion_paths (t F m1 m2 sd1 sd2 d : ℝ) (n1 n2 : ℤ)
    (h : 2 < n1 + n2) :
    Calc.t_to_hedges_g t n1 n2 =
      Calc.cohens_d_to_hedges_g
        (t * Real.sqrt (((n1 : ℝ) + (n2 : ℝ)) / ((n1 : ℝ) * (n2 : ℝ)))) n1 n2 ∧
    Calc.f_to_hedges_g F n1 n2 = Calc.t_to_hedges_g (Real.sqrt F) n1 n2 ∧
    Calc.means_to_hedges_g m1 m2 sd1 sd2 n1 n2 =
      Calc.cohens_d_to_hedges_g
        ((m1 - m2) / Real.sqrt ((((n1 : ℝ) - 1) * sd1 ^ 2 +
          ((n2 : ℝ) - 1) * sd2 ^ 2) / ((n1 : ℝ) + (n2 : ℝ) - 2))) n1 n2 ∧
    (∀ g se, Calc.cohens_d_to_hedges_g d n1 n2 = .ok (g, se) →
      g = d * (1 - 3 / (4 * ((n1 : ℝ) + (n2 : ℝ) - 2) - 1))) := by
  refine ⟨?_, rfl, ?_, ?_⟩
  · unfold Calc.t_to_hedges_g
    by_cases h0 : n1 * n2 = 0
    · rw [if_pos h0]
      unfold Calc.cohens_d_to_hedges_g
      rw [if_pos h0]
    · rw [if_neg h0]
  · unfold Calc.means_to_hedges_g
    rw [if_neg (by omega : ¬ (n1 - 1 + (n2 - 1) = 0))]
    have harg : (((n1 - 1 : ℤ) : ℝ) * sd1 ^ 2 + ((n2 - 1 : ℤ) : ℝ) * sd2 ^ 2) /
        (((n1 - 1 : ℤ) : ℝ) + ((n2 - 1 : ℤ) : ℝ)) =
        (((n1 : ℝ) - 1) * sd1 ^ 2 + ((n2 : ℝ) - 1) * sd2 ^ 2) /
        ((n1 : ℝ) + (n2 : ℝ) - 2) := by
      push_cast
      ring_nf
    rw [harg]
  · intro g se hok
    unfold Calc.cohens_d_to_hedges_g at hok
    by_cases h0 : n1 * n2 = 0
    · rw [if_pos h0] at hok
      exact absurd hok (by simp)
    · rw [if_neg h0, if_neg (by omega : ¬ (n1 + n2 = 0))] at hok
      rw [Except.ok.injEq, Prod.mk.injEq] at hok
      rw [← hok.1]
      have hcast : ((n1 + n2 - 2 : ℤ) : ℝ) = (n1 : ℝ) + (n2 : ℝ) - 2 := by
        push_cast
        ring
      rw [hcast]

/-- Witness for C5 at `F = 2`, `n1 = 50`, `n2 = 48`. -/
theorem c5_witness :
    Calc.f_to_hedges_g 2 50 48 = Calc.t_to_hedges_g (Real.sqrt 2) 50 48 :=
  (c5_conversion_paths 1 2 0 0 0 0 0 50 48 (by norm_num)).2.1

theorem convertStage_cases (data : Calc.PyDict) :
    (Calc.convertStage data = .noMatch ∧ Calc.firstShape data = none) ∨
    (∃ s x, Calc.firstShape data = some s ∧
      Calc.convertStage data = Calc.toConvertOut s x) := by
  unfold Calc.convertStage Calc.firstShape
  by_cases h1 : Calc.hasNonNull data "hedges_g" = true
  · rw [if_pos h1]
    exact Or.inr ⟨_, _, by simp [List.find?, h1], rfl⟩
  · rw [if_neg h1]
    by_cases h2 : Calc.hasNonNull data "cohens_d" = true
    · rw [if_pos h2]
      exact Or.inr ⟨_, _, by simp [List.find?, h1, h2], rfl⟩
    · rw [if_neg h2]
      by_cases h3 : (["m1", "m2", "sd1", "sd2", "n1", "n2"].all
          (Calc.hasKey data)) = true
      · rw [if_pos h3]
        exact Or.inr ⟨_, _, by simp [List.find?, h1, h2, h3], rfl⟩
      · rw [if_neg h3]
        by_cases h4 : (["m_pre", "m_post", "sd_pre", "sd_post", "n"].all
            (Calc.hasKey data)) = true
        · rw [if_pos h4]
          exact Or.inr ⟨_, _, by simp [List.find?, h1, h2, h3, h4], rfl⟩
        · rw [if_neg h4]
          by_cases h5 : (Calc.hasKey data "t" && Calc.hasKey data "n1" &&
              Calc.hasKey data "n2") = true
          · rw [if_pos h5]
            exact Or.inr ⟨_, _, by simp [List.find?, h1, h2, h3, h4, h5], rfl⟩
          · rw [if_neg h5]
            by_cases h6 : (Calc.hasKey data "f" && Calc.hasKey data "n1" &&
                Calc.hasKey data "n2") = true
            · rw [if_pos h6]
              exact Or.inr ⟨_, _,
                by simp [List.find?, h1, h2, h3, h4, h5, h6], rfl⟩
            · rw [if_neg h6]
              by_cases h7 : (Calc.hasKey data "r" && Calc.hasKey data "n") = true
              · rw [if_pos h7]
                exact Or.inr ⟨_, _,
                  by simp [List.find?, h1, h2, h3, h4, h5, h6, h7], rfl⟩
              · rw [if_neg h7]
                exact Or.inl ⟨rfl,
                  by simp [List.find?, h1, h2, h3, h4, h5, h6, h7]⟩

theorem extract_of_noMatch (data : Calc.PyDict)
    (h : Calc.convertStage data = .noMatch) :
    Calc.extract_effect_size data =
      { Calc.emptyResult with
        issues := ["No recognized effect size format found"] } := by
  unfold Calc.extract_effect_size
  rw [h]

theorem extract_of_failed (data : Calc.PyDict) (m : String)
    (h : Calc.convertStage data = .failed m) :
    Calc.extract_effect_size data =
      { Calc.emptyResult with issues := ["Extraction failed: " ++ m] } := by
  unfold Calc.extract_effect_size
  rw [h]

theorem extract_of_converted (data : Calc.PyDict) (meth : String) (g se : ℝ)
    (h : Calc.convertStage data = .converted meth g se) :
    (Calc.extract_effect_size data).method = some meth ∧
    ((∃ m, Calc.validateStepCore data g se = .error m ∧
        Calc.extract_effect_size data =
          { Calc.emptyResult with
            g := some g, se := some se, method := some meth,
            issues := ["Extraction failed: " ++ m] }) ∨
     (∃ v, Calc.validateStepCore data g se = .ok v ∧
        Calc.extract_effect_size data =
          { g := some v.g, se := some v.se, method := some meth,
            valid := v.valid, issues := v.issues,
            warnings := some v.warnings, ci_95 := some v.ci_95,
            n1 := some v.n1, n2 := some v.n2 })) := by
  unfold Calc.extract_effect_size
  rw [h]
  dsimp only
  cases hv : Calc.validateStepCore data g se with
  | error m => exact ⟨rfl, Or.inl ⟨m, rfl, rfl⟩⟩
  | ok v => exact ⟨rfl, Or.inr ⟨v, rfl, rfl⟩⟩

theorem except_bind_ok {α β ε : Type} (a : α) (f : α → Except ε β) :
    (Except.ok a >>= f) = f a := rfl

theorem except_bind_err {α β ε : Type} (m : ε) (f : α → Except ε β) :
    ((Except.error m : Except ε α) >>= f) = Except.error m := rfl

theorem except_map_err {α β ε : Type} (m : ε) (f : α → β) :
    (f <$> (Except.error m : Except ε α)) = Except.error m := rfl

theorem except_map_ok {α β ε : Type} (a : α) (f : α → β) :
    (f <$> (Except.ok a : Except ε α)) = Except.ok (f a) := rfl

theorem except_pure_eq {α ε : Type} (a : α) :
    (pure a : Except ε α) = Except.ok a := rfl

theorem except_throw_eq {α ε : Type} (m : ε) :
    (throw m : Except ε α) = Except.error m := rfl

theorem validate_ok_shape (g se : ℝ) (n1v n2v : Calc.PyVal) (maxg : ℝ)
    (minn : ℚ) (out : Calc.ValidationOut)
    (hok : Calc.validate_effect_size g se n1v n2v maxg minn = .ok out) :
    out.g = g ∧ out.se = se ∧
    out.ci_95 = (g - 1.96 * se, g + 1.96 * se) ∧
    (out.valid = true ↔ out.issues = []) := by
  unfold Calc.validate_effect_size at hok
  cases hq1 : Calc.pyNum n1v with
  | error m =>
    rw [hq1, except_bind_err] at hok
    exact Except.noConfusion hok
  | ok q1 =>
    rw [hq1, except_bind_ok] at hok
    cases hq2 : Calc.pyNum n2v with
    | error m =>
      rw [hq2, except_bind_err] at hok
      exact Except.noConfusion hok
    | ok q2 =>
      rw [hq2, except_bind_ok] at hok
      by_cases hz1 : q1 + q2 = 0
      · rw [if_pos hz1] at hok
        simp only [except_throw_eq, except_bind_err, except_bind_ok,
          except_map_err, except_map_ok, except_pure_eq] at hok
        exact Except.noConfusion hok
      · rw [if_neg hz1] at hok
        by_cases hz2 : min q1 q2 = 0
        · rw [if_pos hz2] at hok
          simp only [except_throw_eq, except_bind_err, except_bind_ok,
            except_map_err, except_map_ok, except_pure_eq] at hok
          exact Except.noConfusion hok
        · rw [if_neg hz2] at hok
          simp only [except_throw_eq, except_bind_err, except_bind_ok,
            except_map_err, except_map_ok, except_pure_eq] at hok
          rw [Except.ok.injEq] at hok
          subst hok
          refine ⟨rfl, rfl, rfl, ?_⟩
          simp [List.isEmpty_iff]

theorem validateStepCore_ok (data : Calc.PyDict) (g se : ℝ)
    (v : Calc.ValidationOut)
    (hok : Calc.validateStepCore data g se = .ok v) :
    ∃ n1v n2v, Calc.validate_effect_size g se n1v n2v 5 10 = .ok v := by
  unfold Calc.validateStepCore at hok
  cases hd : (match List.lookup "n" data with
    | some w => (Calc.pyFloorDiv2 w).map Calc.PyVal.num
    | none => .ok (Calc.PyVal.num 0)) with
  | error m =>
    rw [hd, except_bind_err] at hok
    exact Except.noConfusion hok
  | ok dv =>
    rw [hd, except_bind_ok, except_bind_ok] at hok
    exact ⟨_, _, hok⟩

/-- C8: `extract_effect_size` is total (it returns a result for every
input mapping rather than raising); shapes are recognised in the fixed
priority order direct g → Cohen's d → means/SDs → pre-post → t → F → r
and only the first match is converted (the returned `method` is that
shape's name unless its conversion raised, in which case the caught
exception is recorded as an `"Extraction failed: ..."` issue on an
invalid result); an exception caught during the validation step is
likewise recorded as an `"Extraction failed: ..."` issue with
`valid = false`; when no shape matches, the result is invalid with issue
"No recognized effect size format found". -/
theorem c8_extract_dispatch (data : Calc.PyDict) :
    (Calc.firstShape data = none →
      Calc.extract_effect_size data =
        { Calc.emptyResult with
          issues := ["No recognized effect size format found"] } ∧
      (Calc.extract_effect_size data).valid = false ∧
      "No recognized effect size format found" ∈
        (Calc.extract_effect_size data).issues) ∧
    (∀ s, Calc.firstShape data = some s →
      (Calc.extract_effect_size data).method = some s ∨
      ((Calc.extract_effect_size data).valid = false ∧
        ∃ e, ("Extraction failed: " ++ e) ∈
          (Calc.extract_effect_size data).issues)) ∧
    (∀ meth g se m, Calc.convertStage data = .converted meth g se →
      Calc.validateStepCore data g se = .error m →
      (Calc.extract_effect_size data).valid = false ∧
      ("Extraction failed: " ++ m) ∈
        (Calc.extract_effect_size data).issues) := by
  have hvalerr : ∀ meth g se m,
      Calc.convertStage data = .converted meth g se →
      Calc.validateStepCore data g se = .error m →
      (Calc.extract_effect_size data).valid = false ∧
      ("Extraction failed: " ++ m) ∈
        (Calc.extract_effect_size data).issues := by
    intro meth g se m hc hv
    rcases (extract_of_converted data meth g se hc).2 with
      ⟨m', hv', he⟩ | ⟨v, hv', he⟩
    · rw [hv] at hv'
      obtain rfl : m = m' := (Except.error.injEq _ _).mp hv'
      exact ⟨by rw [he]; rfl, by rw [he]; simp⟩
    · rw [hv] at hv'
      exact Except.noConfusion hv'
  rcases convertStage_cases data with ⟨hcs, hfs⟩ | ⟨s, x, hfs, hcs⟩
  · refine ⟨fun _ => ?_, fun s hs => ?_, hvalerr⟩
    · have he := extract_of_noMatch data hcs
      exact ⟨he, by rw [he]; rfl, by rw [he]; simp⟩
    · rw [hfs] at hs
      exact absurd hs (by simp)
  · refine ⟨fun h0 => ?_, fun s' hs' => ?_, hvalerr⟩
    · rw [hfs] at h0
      exact absurd h0 (by simp)
    · rw [hfs, Option.some_inj] at hs'
      subst hs'
      cases x with
      | error m =>
        have hcs' : Calc.convertStage data = .failed m := by
          rw [hcs]; rfl
        have he := extract_of_failed data m hcs'
        right
        rw [he]
        exact ⟨rfl, m, by simp⟩
      | ok p =>
        obtain ⟨pg, pse⟩ := p
        have hcs' : Calc.convertStage data = .converted s pg pse := by
          rw [hcs]; rfl
        exact Or.inl (extract_of_converted data s pg pse hcs').1

/-- Witness for C8 at the empty input mapping: no shape matches and the
result is the invalid no-format record. -/
theorem c8_witness :
    Calc.extract_effect_size [] =
      { Calc.emptyResult with
        issues := ["No recognized effect size format found"] } ∧
    (Calc.extract_effect_size []).valid = false ∧
    "No recognized effect size format found" ∈
      (Calc.extract_effect_size []).issues :=
  (c8_extract_dispatch []).1 rfl

/-- C10: whenever extraction fails — no recognised shape, or an
exception caught during conversion or validation — the returned record
omits the `warnings`, `ci_95`, `n1`, `n2` keys entirely, while a result
that completed validation carries all four. -/
theorem c10_failed_results_schema (data : Calc.PyDict) :
    ((Calc.firstShape data = none ∨
      (∃ m, Calc.convertStage data = .failed m) ∨
      (∃ meth g se m, Calc.convertStage data = .converted meth g se ∧
        Calc.validateStepCore data g se = .error m)) →
      (Calc.extract_effect_size data).warnings = none ∧
      (Calc.extract_effect_size data).ci_95 = none ∧
      (Calc.extract_effect_size data).n1 = none ∧
      (Calc.extract_effect_size data).n2 = none) ∧
    ((∃ meth g se v, Calc.convertStage data = .converted meth g se ∧
        Calc.validateStepCore data g se = .ok v) →
      (Calc.extract_effect_size data).warnings.isSome = true ∧
      (Calc.extract_effect_size data).ci_95.isSome = true ∧
      (Calc.extract_effect_size data).n1.isSome = true ∧
      (Calc.extract_effect_size data).n2.isSome = true) := by
  constructor
  · rintro (h0 | ⟨m, hf⟩ | ⟨meth, g, se, m, hc, hv⟩)
    · rcases convertStage_cases data with ⟨hcs, _⟩ | ⟨s, x, hfs, _⟩
      · rw [extract_of_noMatch data hcs]
        exact ⟨rfl, rfl, rfl, rfl⟩
      · rw [hfs] at h0
        exact absurd h0 (by simp)
    · rw [extract_of_failed data m hf]
      exact ⟨rfl, rfl, rfl, rfl⟩
    · rcases (extract_of_converted data meth g se hc).2 with
        ⟨m', hv', he⟩ | ⟨v, hv', he⟩
      · rw [he]
        exact ⟨rfl, rfl, rfl, rfl⟩
      · rw [hv] at hv'
        exact Except.noConfusion hv'
  · rintro ⟨meth, g, se, v, hc, hv⟩
    rcases (extract_of_converted data meth g se hc).2 with
      ⟨m', hv', he⟩ | ⟨v', hv', he⟩
    · rw [hv] at hv'
      exact Except.noConfusion hv'
    · rw [he]
      exact ⟨rfl, rfl, rfl, rfl⟩

/-- A direct-g record whose reported standard error is negative: the
direct branch copies `se_g` through unchecked and validation has no
positivity check on it. -/
def c3Data : Calc.PyDict :=
  [("hedges_g", .num (1/2)), ("se_g", .num (-(1/10))),
   ("n1", .num 20), ("n2", .num 20)]

theorem c3_conv : Calc.convertStage c3Data =
    .converted "direct_hedges_g" ((1/2 : ℚ) : ℝ) ((-(1/10) : ℚ) : ℝ) := by
  have hHas : Calc.hasNonNull c3Data "hedges_g" = true := by decide
  have hne : ¬((-(1/10) : ℚ) = 0) := by norm_num
  unfold Calc.convertStage
  rw [if_pos hHas]
  have l0 : Calc.pyGetItem c3Data "hedges_g" = .ok (.num (1/2)) := rfl
  have l1 : (List.lookup "se_g" c3Data).getD
      ((List.lookup "se" c3Data).getD (.num 0)) = .num (-(1/10)) := rfl
  rw [l0, except_bind_ok]
  show Calc.toConvertOut _ (Calc.pyFloat (.num (1/2)) >>= _) = _
  rw [show Calc.pyFloat (Calc.PyVal.num (1/2)) = .ok (1/2) from rfl,
    except_bind_ok]
  rw [l1]
  rw [show Calc.pyFloat (Calc.PyVal.num (-(1/10))) = .ok (-(1/10)) from rfl,
    except_bind_ok]
  rw [if_neg (by rintro ⟨h, -⟩; exact hne h)]
  rfl

theorem c3_val : Calc.validateStepCore c3Data ((1/2 : ℚ) : ℝ)
      ((-(1/10) : ℚ) : ℝ) =
    .ok { valid := true, issues := [], warnings := ["se_small"],
          g := ((1/2 : ℚ) : ℝ), se := ((-(1/10) : ℚ) : ℝ),
          ci_95 := (((1/2 : ℚ) : ℝ) - 1.96 * ((-(1/10) : ℚ) : ℝ),
                    ((1/2 : ℚ) : ℝ) + 1.96 * ((-(1/10) : ℚ) : ℝ)),
          n1 := 20, n2 := 20 } := by
  have h5 : ¬((5 : ℝ) < |((1/2 : ℚ) : ℝ)|) := by
    rw [abs_of_nonneg (by push_cast; norm_num)]
    push_cast
    norm_num
  have hq1 : ¬((20 : ℚ) < 10) := by norm_num
  have hz1 : ¬((20 : ℚ) + 20 = 0) := by norm_num
  have hz2 : ¬(min (20 : ℚ) 20 = 0) := by norm_num
  have hsmall : ((-(1/10) : ℚ) : ℝ) <
      Real.sqrt ((2 : ℝ) / (((20 : ℚ) : ℝ) + ((20 : ℚ) : ℝ))) * 0.5 := by
    have h0 : (0 : ℝ) <
        Real.sqrt ((2 : ℝ) / (((20 : ℚ) : ℝ) + ((20 : ℚ) : ℝ))) :=
      Real.sqrt_pos.mpr (by push_cast; norm_num)
    have hneg : ((-(1/10) : ℚ) : ℝ) < 0 := by push_cast; norm_num
    nlinarith
  have hlarge : ¬(Real.sqrt ((4 : ℝ) / ((min (20 : ℚ) 20 : ℚ) : ℝ)) <
      ((-(1/10) : ℚ) : ℝ)) := by
    have h0 := Real.sqrt_nonneg ((4 : ℝ) / ((min (20 : ℚ) 20 : ℚ) : ℝ))
    have hneg : ((-(1/10) : ℚ) : ℝ) < 0 := by push_cast; norm_num
    linarith
  have hd : (match List.lookup "n" c3Data with
    | some w => (Calc.pyFloorDiv2 w).map Calc.PyVal.num
    | none => .ok (Calc.PyVal.num 0)) = .ok (Calc.PyVal.num 0) := rfl
  unfold Calc.validateStepCore
  rw [hd, except_bind_ok, except_bind_ok]
  have hn1 : (List.lookup "n1" c3Data).getD (Calc.PyVal.num 0) =
      .num 20 := rfl
  have hn2 : (List.lookup "n2" c3Data).getD (Calc.PyVal.num 0) =
      .num 20 := rfl
  rw [hn1, hn2]
  unfold Calc.validate_effect_size
  simp only [show Calc.pyNum (Calc.PyVal.num 20) = Except.ok 20 from rfl,
    except_bind_ok, except_pure_eq]
  simp [h5, hq1, hz1, hz2, hsmall, hlarge]
  have hp : (-10⁻¹ : ℝ) < Real.sqrt 2 / Real.sqrt (20 + 20) * 0.5 := by
    have h1 : (0 : ℝ) < Real.sqrt 2 / Real.sqrt (20 + 20) * 0.5 := by positivity
    have h2 : (-10⁻¹ : ℝ) < 0 := by norm_num
    linarith
  have hq : ¬(Real.sqrt 4 / Real.sqrt 20 < (-10⁻¹ : ℝ)) := by
    have h1 : (0 : ℝ) ≤ Real.sqrt 4 / Real.sqrt 20 := by positivity
    have h2 : (-10⁻¹ : ℝ) < 0 := by norm_num
    intro h
    linarith
  refine ⟨?_, ?_⟩
  · rw [abs_of_nonneg (by norm_num : (0 : ℝ) ≤ 2⁻¹)]
    norm_num
  · rw [if_pos hp, if_neg hq]
    simp

theorem c3_extract_eval :
    Calc.extract_effect_size c3Data =
      { g := some ((1/2 : ℚ) : ℝ), se := some ((-(1/10) : ℚ) : ℝ),
        method := some "direct_hedges_g", valid := true, issues := [],
        warnings := some ["se_small"],
        ci_95 := some (((1/2 : ℚ) : ℝ) - 1.96 * ((-(1/10) : ℚ) : ℝ),
                       ((1/2 : ℚ) : ℝ) + 1.96 * ((-(1/10) : ℚ) : ℝ)),
        n1 := some 20, n2 := some 20 } := by
  unfold Calc.extract_effect_size
  rw [c3_conv]
  dsimp only
  rw [c3_val]

/-- C3 (amended): the CI half of the invariant holds — a successful
validation returns `ci_95` equal to the literal pair
`(g - 1.96·se, g + 1.96·se)` with `g` and `se` passed through unchanged
and `valid` exactly `issues = []`, and every `ci_95` present on an
extraction result is that literal formula of the result's own `g` and
`se`; but the se-positivity half is false: `validate_effect_size` never
checks the sign of `se`, so `valid = true` with a non-positive `se` is
reachable. -/
theorem c3_ci_exact (data : Calc.PyDict) (g se : ℝ) (n1v n2v : Calc.PyVal)
    (maxg : ℝ) (minn : ℚ) (out : Calc.ValidationOut) :
    (Calc.validate_effect_size g se n1v n2v maxg minn = .ok out →
      out.g = g ∧ out.se = se ∧
      out.ci_95 = (g - 1.96 * se, g + 1.96 * se) ∧
      (out.valid = true ↔ out.issues = [])) ∧
    (∀ lo hi, (Calc.extract_effect_size data).ci_95 = some (lo, hi) →
      ∃ gv sev, (Calc.extract_effect_size data).g = some gv ∧
        (Calc.extract_effect_size data).se = some sev ∧
        lo = gv - 1.96 * sev ∧ hi = gv + 1.96 * sev) := by
  constructor
  · exact fun hok => validate_ok_shape g se n1v n2v maxg minn out hok
  · intro lo hi hci
    rcases convertStage_cases data with ⟨hcs, _⟩ | ⟨s, x, _, hcs⟩
    · rw [extract_of_noMatch data hcs] at hci
      simp [Calc.emptyResult] at hci
    · cases x with
      | error m =>
        have h' : Calc.convertStage data = .failed m := by rw [hcs]; rfl
        rw [extract_of_failed data m h'] at hci
        simp [Calc.emptyResult] at hci
      | ok p =>
        obtain ⟨pg, pse⟩ := p
        have h' : Calc.convertStage data = .converted s pg pse := by
          rw [hcs]; rfl
        rcases (extract_of_converted data s pg pse h').2 with
          ⟨m, hv, he⟩ | ⟨v, hv, he⟩
        · rw [he] at hci
          simp [Calc.emptyResult] at hci
        · rw [he] at hci
          have hci' : v.ci_95 = (lo, hi) := Option.some_injective _ hci
          obtain ⟨n1v', n2v', hval⟩ := validateStepCore_ok data pg pse v hv
          obtain ⟨hg, hse, hcieq, -⟩ :=
            validate_ok_shape pg pse n1v' n2v' 5 10 v hval
          have hpair : (lo, hi) = (pg - 1.96 * pse, pg + 1.96 * pse) := by
            rw [← hci', hcieq]
          have hlo := congrArg Prod.fst hpair
          have hhi := congrArg Prod.snd hpair
          dsimp only at hlo hhi
          refine ⟨v.g, v.se, by rw [he], by rw [he], ?_, ?_⟩
          · rw [hg, hse]
            exact hlo
          · rw [hg, hse]
            exact hhi

/-- Witness for C3's amended theorem at the concrete negative-se input:
its extraction result carries a `ci_95`, and the theorem recovers the
literal `g ± 1.96·se` formula for it. -/
theorem c3_witness :
    ∃ gv sev, (Calc.extract_effect_size c3Data).g = some gv ∧
      (Calc.extract_effect_size c3Data).se = some sev ∧
      (((1/2 : ℚ) : ℝ) - 1.96 * ((-(1/10) : ℚ) : ℝ)) = gv - 1.96 * sev ∧
      (((1/2 : ℚ) : ℝ) + 1.96 * ((-(1/10) : ℚ) : ℝ)) = gv + 1.96 * sev :=
  (c3_ci_exact c3Data 0 0 (.num 0) (.num 0) 0 0
      ⟨true, [], [], 0, 0, (0, 0), 0, 0⟩).2
    (((1/2 : ℚ) : ℝ) - 1.96 * ((-(1/10) : ℚ) : ℝ))
    (((1/2 : ℚ) : ℝ) + 1.96 * ((-(1/10) : ℚ) : ℝ))
    (by rw [c3_extract_eval])

/-- C3 counterexample: the input `{hedges_g: 0.5, se_g: -0.1, n1: 20,
n2: 20}` extracts to a result with `valid = true` whose `se` is the
negative `-0.1` — the claimed invariant "se is strictly positive
whenever valid is true" fails. -/
theorem c3_counterexample :
    (Calc.extract_effect_size c3Data).valid = true ∧
    (Calc.extract_effect_size c3Data).se = some ((-(1/10) : ℚ) : ℝ) ∧
    ((-(1/10) : ℚ) : ℝ) < 0 := by
  rw [c3_extract_eval]
  refine ⟨rfl, rfl, ?_⟩
  push_cast
  norm_num
